import Mathlib

/-!
Shallow embedding of the machine-pool creation logic of
`pkg/machinepool/machinepool.go` (a command-line tool for managing machine
pools and node pools on managed Kubernetes clusters).  External collaborators
(control-plane API client, cloud SDK, interactive prompt engine) are modelled
as oracle fields of the environment; the embedded functions reproduce the
source's control flow, validation order and error messages.  A successful
result is the request object handed to the create API call; an `.error`
result means the operation aborted before that call was issued.
-/

namespace Rosa

/-- Decidable equality for `Except`, needed to evaluate the embedded
operations on concrete inputs with `decide`. -/
instance exceptDecEq {ε α : Type} [DecidableEq ε] [DecidableEq α] : DecidableEq (Except ε α) :=
  fun x y =>
    match x, y with
    | .ok a, .ok b =>
      if h : a = b then .isTrue (by rw [h]) else .isFalse (by intro hh; cases hh; exact h rfl)
    | .error a, .error b =>
      if h : a = b then .isTrue (by rw [h]) else .isFalse (by intro hh; cases hh; exact h rfl)
    | .ok _, .error _ => .isFalse (by intro h; cases h)
    | .error _, .ok _ => .isFalse (by intro h; cases h)

/-- Decimal number with value `num / 10 ^ scale`, kept unnormalised so that
all arithmetic is kernel computable.  Carries the finite results of
`parseGoFloat` below. -/
structure Decimal where
  num : Int
  scale : Nat
deriving DecidableEq

def isDigitChar (c : Char) : Bool := '0' ≤ c && c ≤ '9'

def isHexDigitChar (c : Char) : Bool :=
  isDigitChar c || ('a' ≤ c.toLower && c.toLower ≤ 'f')

def digitVal (c : Char) : Nat :=
  if isDigitChar c then c.toNat - '0'.toNat else c.toLower.toNat - 'a'.toNat + 10

def digitsVal (base : Nat) (ds : List Char) : Nat :=
  ds.foldl (fun a c => a * base + digitVal c) 0

/-- Result of Go's `strconv.ParseFloat` when `err == nil`: NaN, a signed
infinity, or a finite value.  Finite values are carried exactly as a
`Decimal` instead of being rounded to binary64; the machine-pool validator
only inspects the sign of the result, on which the exact value and its
binary64 rounding agree (values whose binary64 rounding is zero are
classified as `finite ⟨0, 0⟩`). -/
inductive GoFloat where
  | nan : GoFloat
  | inf (neg : Bool) : GoFloat
  | finite (d : Decimal) : GoFloat
deriving DecidableEq

/-- Models the Go comparison `price <= 0` on a parsed float: false for NaN
(every comparison with NaN is false), the sign for infinities, and the sign
of the exact value for finite results. -/
def goFloatLE0 : GoFloat → Bool
  | .nan => false
  | .inf neg => neg
  | .finite d => decide (d.num ≤ 0)

/-- Models the Go comparison `0 < price` on a parsed float; used to state
claim C5's "parses to a float strictly greater than zero". -/
def goFloatGT0 : GoFloat → Bool
  | .nan => false
  | .inf neg => !neg
  | .finite d => decide (0 < d.num)

def parseSpecialTail (neg signed : Bool) (t : List Char) : Option GoFloat :=
  let low := t.map Char.toLower
  if low = ['i', 'n', 'f'] ∨ low = ['i', 'n', 'f', 'i', 'n', 'i', 't', 'y'] then
    some (.inf neg)
  else if ¬signed ∧ low = ['n', 'a', 'n'] then some .nan
  else none

/-- Embeds the `special` recognizer of `strconv.atof`: case-insensitively,
the whole string `inf` or `infinity` with an optional sign, or the unsigned
string `nan` (after a sign the Go switch only falls through to the infinity
case, so a signed NaN is not special). -/
def parseSpecial? (cs : List Char) : Option GoFloat :=
  match cs with
  | '-' :: t => parseSpecialTail true true t
  | '+' :: t => parseSpecialTail false true t
  | t => parseSpecialTail false false t

def underscoreOKLoop (hex : Bool) : List Char → Char → Bool
  | [], saw => saw ≠ '_'
  | c :: t, saw =>
    if isDigitChar c || (hex && isHexDigitChar c) then underscoreOKLoop hex t '0'
    else if c = '_' then
      if saw = '0' then underscoreOKLoop hex t '_' else false
    else if saw = '_' then false
    else underscoreOKLoop hex t '!'

/-- Embeds `strconv.underscoreOK`: underscores may only separate digits, a
base prefix counting as a digit; `saw` tracks the class of the previous
character exactly as in the Go code. -/
def underscoreOK (cs : List Char) : Bool :=
  let cs1 := match cs with
    | '-' :: t => t
    | '+' :: t => t
    | t => t
  match cs1 with
  | '0' :: b :: t =>
    if b.toLower = 'x' ∨ b.toLower = 'b' ∨ b.toLower = 'o' then
      underscoreOKLoop (b.toLower = 'x') t '0'
    else underscoreOKLoop false cs1 '^'
  | _ => underscoreOKLoop false cs1 '^'

/-- Embeds the mantissa loop of `strconv.readFloat`: digits (hexadecimal when
`hex`) and at most one dot, with underscores skipped during scanning (their
placement is checked separately by `underscoreOK`).  Returns the digit
characters, the count of fractional digits, and the unconsumed input. -/
def scanMantissa (hex : Bool) : List Char → List Char → Bool → Nat →
    List Char × Nat × List Char
  | [], digits, _, frac => (digits, frac, [])
  | c :: t, digits, dotSeen, frac =>
    if c = '_' then scanMantissa hex t digits dotSeen frac
    else if c = '.' then
      if dotSeen then (digits, frac, c :: t)
      else scanMantissa hex t digits true frac
    else if isDigitChar c || (hex && isHexDigitChar c) then
      scanMantissa hex t (digits ++ [c]) dotSeen (if dotSeen then frac + 1 else frac)
    else (digits, frac, c :: t)

/-- Embeds the exponent-digit loop of `strconv.readFloat`, including its cap
(further digits are ignored once the accumulator reaches 10000). -/
def scanExpDigits : List Char → Nat → Nat × List Char
  | [], e => (e, [])
  | c :: t, e =>
    if c = '_' then scanExpDigits t e
    else if isDigitChar c then
      scanExpDigits t (if e < 10000 then e * 10 + (c.toNat - '0'.toNat) else e)
    else (e, c :: t)

def scanSignedExpDigits (sign : Int) (cs : List Char) : Option (Int × List Char) :=
  match cs with
  | c :: _ =>
    if isDigitChar c then
      let r := scanExpDigits cs 0
      some (sign * Int.ofNat r.1, r.2)
    else none
  | [] => none

/-- Optional sign followed by at least one digit (an underscore may not open
the exponent), as `strconv.readFloat` requires after `e`/`p`. -/
def scanSignedExp (cs : List Char) : Option (Int × List Char) :=
  match cs with
  | '+' :: t => scanSignedExpDigits 1 t
  | '-' :: t => scanSignedExpDigits (-1) t
  | t => scanSignedExpDigits 1 t

/-- Smallest magnitude that binary64 rounds up to infinity,
`(2 ^ 53 - 1 / 2) · 2 ^ 971 = (2 ^ 54 - 1) · 2 ^ 970`; at or beyond it (ties
round to the even mantissa `2 ^ 53`, hence to infinity) `strconv.ParseFloat`
reports `ErrRange`.  Written as a literal so that concrete runs evaluate by
kernel reduction; `floatOverflowBound_eq` certifies the value. -/
def floatOverflowBound : Nat :=
  179769313486231580793728971405303415079934132710037826936173778980444968292764750946649017977587207096330286416692887910946555547851940402630657488671505820681908902000708383676273854845817711531764475730270069855571366959622842914819860834936475292719074168444365510704342711559699508093042880177904174497792

/-- Largest magnitude that binary64 rounds to zero, `2 ^ (-1075)` (ties round
to the even mantissa 0), represented by its numerator `2 ^ 1075`.  Written as
a literal; `floatZeroBound_eq` certifies the value. -/
def floatZeroBound : Nat :=
  404804506614621236704990693437834614099113299528284236713802716054860679135990693783920767402874248990374155728633623822779617474771586953734026799881477019843034848553132722728933815484186432682479535356945490137124014966849385397236206711298319112681620113024717539104666829230461005064372655017292012526615415482186989568

/-- Classifies the exact decimal value `± m · 10 ^ exp10` (with `nd`
significant digits in `m`) as a binary64 parse result, mirroring
`decimal.floatBits`: its quick bounds `dp > 310` (overflow, a range error)
and `dp < -330` (rounds to zero, no error), then exact comparison with the
overflow bound and with `2 ^ (-1075)`, below or at which (ties to the even
mantissa 0) the value rounds to zero. -/
def classifyDec (neg : Bool) (m : Nat) (nd : Nat) (exp10 : Int) : Option GoFloat :=
  if m = 0 then some (.finite ⟨0, 0⟩)
  else
    let dp : Int := exp10 + Int.ofNat nd
    if dp > 310 then none
    else if dp < -330 then some (.finite ⟨0, 0⟩)
    else
      let overflow : Bool :=
        if 0 ≤ exp10 then decide (floatOverflowBound ≤ m * 10 ^ exp10.toNat)
        else decide (floatOverflowBound * 10 ^ (-exp10).toNat ≤ m)
      if overflow then none
      else
        let isZero : Bool :=
          decide (exp10 < 0) && decide (m * floatZeroBound ≤ 10 ^ (-exp10).toNat)
        if isZero then some (.finite ⟨0, 0⟩)
        else
          some (.finite
            (if 0 ≤ exp10 then ⟨(if neg then -1 else 1) * Int.ofNat (m * 10 ^ exp10.toNat), 0⟩
             else ⟨(if neg then -1 else 1) * Int.ofNat m, (-exp10).toNat⟩))

/-- Classifies the exact value `± h · 2 ^ exp2` of a hexadecimal literal
(with `nhd` significant hex digits in `h`) as a binary64 parse result, with
the same overflow and round-to-zero bounds as `classifyDec` (for `exp2 < 0`
the finite value is `h · 5 ^ (-exp2) / 10 ^ (-exp2)`). -/
def classifyHex (neg : Bool) (h : Nat) (nhd : Nat) (exp2 : Int) : Option GoFloat :=
  if h = 0 then some (.finite ⟨0, 0⟩)
  else
    let bitsLo : Int := 4 * (Int.ofNat nhd - 1) + exp2
    let bitsHi : Int := 4 * Int.ofNat nhd + exp2
    if bitsLo > 1030 then none
    else if bitsHi < -1075 then some (.finite ⟨0, 0⟩)
    else
      let overflow : Bool :=
        if 0 ≤ exp2 then decide (floatOverflowBound ≤ h * 2 ^ exp2.toNat)
        else decide (floatOverflowBound * 2 ^ (-exp2).toNat ≤ h)
      if overflow then none
      else
        let isZero : Bool :=
          decide (exp2 ≤ -1075) && decide (h ≤ 2 ^ ((-exp2).toNat - 1075))
        if isZero then some (.finite ⟨0, 0⟩)
        else
          some (.finite
            (if 0 ≤ exp2 then ⟨(if neg then -1 else 1) * Int.ofNat (h * 2 ^ exp2.toNat), 0⟩
             else ⟨(if neg then -1 else 1) * Int.ofNat (h * 5 ^ (-exp2).toNat), (-exp2).toNat⟩))

/-- Parses the decimal form after the sign: digits with an optional dot and
an optional `e`/`E` exponent, at least one digit overall, consuming the whole
input. -/
def parseDecTail (neg : Bool) (cs : List Char) : Option GoFloat :=
  match scanMantissa false cs [] false 0 with
  | (digits, frac, rest) =>
    if digits.isEmpty then none
    else
      let m := digitsVal 10 digits
      let nd := (digits.dropWhile fun c => c == '0').length
      match rest with
      | [] => classifyDec neg m nd (-(Int.ofNat frac))
      | c :: t =>
        if c.toLower = 'e' then
          match scanSignedExp t with
          | none => none
          | some (e, rest2) =>
            if rest2.isEmpty then classifyDec neg m nd (e - Int.ofNat frac) else none
        else none

/-- Parses the hexadecimal form after the sign and `0x` prefix: hex digits
with an optional dot and a mandatory `p`/`P` exponent, consuming the whole
input. -/
def parseHexTail (neg : Bool) (cs : List Char) : Option GoFloat :=
  match scanMantissa true cs [] false 0 with
  | (digits, frac, rest) =>
    if digits.isEmpty then none
    else
      let hval := digitsVal 16 digits
      let nhd := (digits.dropWhile fun c => c == '0').length
      match rest with
      | c :: t =>
        if c.toLower = 'p' then
          match scanSignedExp t with
          | none => none
          | some (p, rest2) =>
            if rest2.isEmpty then classifyHex neg hval nhd (p - 4 * Int.ofNat frac) else none
        else none
      | [] => none

def parseGoFloatNoSign (neg : Bool) (cs : List Char) : Option GoFloat :=
  match cs with
  | '0' :: b :: t =>
    if b.toLower = 'x' then parseHexTail neg t else parseDecTail neg ('0' :: b :: t)
  | _ => parseDecTail neg cs

/-- Embeds `strconv.ParseFloat(s, bitSize)` for the call sites of this code
(any `bitSize` other than 32 selects 64-bit parsing; the source passes
`commonUtils.MaxByteSize`): the case-insensitive special values, decimal and
hexadecimal literals with Go's underscore placement rules and full-string
consumption, `ErrRange` on overflow (returned as `none`, since the validator
only distinguishes `err == nil`), and rounding to zero on extreme underflow
(which is not an error).  Finite values are kept exact; see `GoFloat`. -/
def parseGoFloat (s : String) : Option GoFloat :=
  match parseSpecial? s.data with
  | some v => some v
  | none =>
    if !underscoreOK s.data then none
    else
      match s.data with
      | '-' :: t => parseGoFloatNoSign true t
      | '+' :: t => parseGoFloatNoSign false t
      | t => parseGoFloatNoSign false t

/-- The finite value of a successful parse, when there is one: this is what
machinepool.go:458 stores as the spot max price.  For the non-finite results
NaN and infinity the stored float has no `Decimal` counterpart and this
projection is `none` (those strings never reach line 458 with spot pricing
semantics the claims depend on; the validator below uses the full
`parseGoFloat`). -/
def parseFloat? (s : String) : Option Decimal :=
  match parseGoFloat s with
  | some (.finite d) => some d
  | _ => none

/-- Embeds `minReplicaValidator` (machinepool.go:604-618).  The
`interface\x7b\x7d` argument is in practice always an integer, so it is
modelled as `Int`; both Go's truncated `%` and Lean's `emod` are zero exactly
on multiples of 3. -/
def minReplicaValidator (multiAZMachinePool : Bool) (minReplicas : Int) : Except String Unit :=
  if minReplicas < 0 then .error "min-replicas must be a non-negative integer"
  else if multiAZMachinePool ∧ minReplicas % 3 ≠ 0 then
    .error "Multi AZ clusters require that the replicas be a multiple of 3"
  else .ok ()

/-- Embeds `maxReplicaValidator` (machinepool.go:620-634). -/
def maxReplicaValidator (minReplicas : Int) (multiAZMachinePool : Bool) (maxReplicas : Int) :
    Except String Unit :=
  if minReplicas > maxReplicas then .error "max-replicas must be greater or equal to min-replicas"
  else if multiAZMachinePool ∧ maxReplicas % 3 ≠ 0 then
    .error "Multi AZ clusters require that the replicas be a multiple of 3"
  else .ok ()

/-- Embeds `spotMaxPriceValidator` (machinepool.go:636-650).  The
`interface\x7b\x7d` argument is in practice always a string; the
`strconv.ParseFloat` call is `parseGoFloat` and the `price <= 0` test on the
parsed float is `goFloatLE0`. -/
def spotMaxPriceValidator (val : String) : Except String Unit :=
  if val = "on-demand" then .ok ()
  else
    match parseGoFloat val with
    | none => .error "Expected a numeric value for spot max price"
    | some price =>
      if goFloatLE0 price then .error "Spot max price must be positive" else .ok ()

def isLowerAZ (c : Char) : Bool := 'a' ≤ c && c ≤ 'z'

def isLowerAlnum (c : Char) : Bool := isLowerAZ c || isDigitChar c

def isKeyMid (c : Char) : Bool := c == '-' || isLowerAlnum c

/-- Embeds the regular expression `machinePoolKeyRE` =
`^[a-z]([-a-z0-9]*[a-z0-9])?$` (machinepool.go:39) as a decidable matcher:
the first character is a lowercase letter; an optional tail consists of
characters from `[-a-z0-9]` and ends in a character from `[a-z0-9]`. -/
def machinePoolKeyMatch (s : String) : Bool :=
  match s.data with
  | [] => false
  | c :: rest =>
    isLowerAZ c &&
      match rest.reverse with
      | [] => true
      | lastc :: mid => isLowerAlnum lastc && mid.all isKeyMid

/-- Embeds `strings.Trim(s, " \t")`: removes leading and trailing spaces and
tabs. -/
def trimSpaceTab (s : String) : String :=
  String.mk (((s.data.dropWhile fun c => c == ' ' || c == '\t').reverse.dropWhile
    fun c => c == ' ' || c == '\t').reverse)

/-- Embeds `strings.TrimSpace` (used on security-group ids); Go trims Unicode
whitespace, modelled here by `Char.isWhitespace`. -/
def goTrimSpace (s : String) : String :=
  String.mk (((s.data.dropWhile Char.isWhitespace).reverse.dropWhile Char.isWhitespace).reverse)

/-! ## Environment: flags, arguments, cluster metadata, external collaborators -/

/-- Which command-line flags were explicitly set by the user
(`cmd.Flags().Changed(...)` in the source). -/
structure Flags where
  multiAvailabilityZone : Bool
  availabilityZone : Bool
  subnet : Bool
  securityGroupIds : Bool
  minReplicas : Bool
  maxReplicas : Bool
  enableAutoscaling : Bool
  replicas : Bool
  useSpotInstances : Bool
  spotMaxPrice : Bool
  version : Bool

/-- Embeds `CreateMachinepoolUserOptions` (machinepool.go:41-63). -/
structure Args where
  name : String
  instanceType : String
  replicas : Int
  autoscalingEnabled : Bool
  minReplicas : Int
  maxReplicas : Int
  labels : String
  taints : String
  useSpotInstances : Bool
  spotMaxPrice : String
  multiAvailabilityZone : Bool
  availabilityZone : String
  subnet : String
  version : String
  autorepair : Bool
  tuningConfigs : String
  kubeletConfigs : String
  rootDiskSize : String
  securityGroupIds : List String
  nodeDrainGracePeriod : String
  tags : List String

/-- Read-only cluster metadata used by the creation flow: `cluster.MultiAZ()`,
`helper.IsBYOVPC(cluster)`, `cluster.Nodes().AvailabilityZones()`,
`cluster.Version().RawID()` and `cluster.AWS().SubnetIDs()`. -/
structure Cluster where
  multiAZ : Bool
  byoVpc : Bool
  availabilityZones : List String
  versionRawId : String
  subnetIds : List String

/-- Answers of the interactive prompt engine, one oracle per prompt of the
source; each takes the prompt's default value.  An `.error` models a failed
prompt (for example a closed terminal). -/
structure Prompts where
  name : String → Except String String
  multiAZMachinePool : Bool → Except String Bool
  availabilityZone : String → Except String String
  enableAutoscaling : Bool → Except String Bool
  minReplicas : Int → Except String Int
  maxReplicas : Int → Except String Int
  replicas : Int → Except String Int
  securityGroups : Except String (List String)
  instanceType : String → Except String String
  useSpotInstances : Bool → Except String Bool
  spotMaxPrice : String → Except String String
  rootDiskSize : String → Except String String
  subnetFromUser : Except String String
  openshiftVersion : String → Except String String
  autorepair : Bool → Except String Bool
  tuningConfigs : List String → Except String (List String)
  kubeletConfigs : List String → Except String (List String)
  nodeDrainGracePeriod : String → Except String String
  azNodePool : String → Except String String

/-- External collaborators (control-plane API client, cloud SDK and helper
packages outside the excerpt), modelled as oracles.  Result types follow the
source call sites. -/
structure Runtime where
  sgVersionCompat : Except String Bool
  formatSgMinVersion : Except String String
  getSubnetAvailabilityZone : String → Except String String
  isLocalAvailabilityZone : String → Except String Bool
  getAvailableMachineTypesInRegion : List String → Except String (List String)
  validateMachineType : String → Bool → Except String Unit
  getLabelMap : String → List (String × String)
  getTaints : String → List (String × String × String)
  getAwsTags : List String → List (String × String)
  defaultRootDiskSize : Int
  parseDiskSizeToGigibyte : String → Except String Int
  validateRootDiskSize : String → Int → Except String Unit
  getVPCPrivateSubnets : String → Except String (List (String × String))
  getVersionList : Except String (List String)
  getMinimalHostedMachinePoolVersion : String → Except String String
  getFilteredVersionList : List String → String → String → List String
  validateVersion : String → List String → Except String String
  isFeatureSupportedSgHcp : String → Except String Bool
  getTuningConfigsName : Except String (List String)
  listKubeletConfigNames : Except String (List String)
  createNodeDrainGracePeriodBuilder : String → Except String Int

/-- One invocation's full input: flags, arguments, cluster, collaborators,
the global interactive toggle (`interactive.Enabled()` at entry) and the
global auto-confirm toggle (`confirm.Yes()`). -/
structure Env where
  flags : Flags
  args : Args
  cluster : Cluster
  rt : Runtime
  prompts : Prompts
  interactiveEnabled : Bool
  confirmYes : Bool

/-! ## Request payloads (the objects handed to the create API calls) -/

/-- Embeds `cmv1.AWSSpotMarketOptions`: the max-price field is present
exactly when `maxPrice` is `some`. -/
structure SpotMarketOptions where
  maxPrice : Option Decimal
deriving DecidableEq

/-- Embeds the `cmv1.AWSMachinePool` section built at machinepool.go:479-493. -/
structure AwsMachinePoolSection where
  spotMarketOptions : Option SpotMarketOptions
  additionalSecurityGroupIds : List String
  tags : List (String × String)
deriving DecidableEq

/-- Embeds the `cmv1.MachinePool` object built at machinepool.go:464-553. -/
structure MachinePoolRequest where
  id : String
  instanceType : String
  labels : List (String × String)
  taints : List (String × String × String)
  autoscaling : Option (Int × Int)
  replicas : Option Int
  aws : AwsMachinePoolSection
  availabilityZones : List String
  subnets : List String
  rootVolumeSize : Option Int
deriving DecidableEq

/-- Embeds the `AWSNodePool` section of a node pool request. -/
structure AwsNodePoolSection where
  instanceType : String
  additionalSecurityGroupIds : List String
  tags : List (String × String)
deriving DecidableEq

/-- Embeds the `cmv1.NodePool` object built at machinepool.go:866-1071. -/
structure NodePoolRequest where
  id : String
  labels : List (String × String)
  taints : List (String × String × String)
  autoscaling : Option (Int × Int)
  replicas : Option Int
  subnet : Option String
  autoRepair : Bool
  tuningConfigs : List String
  kubeletConfigs : List String
  awsNodePool : AwsNodePoolSection
  nodeDrainGracePeriodMinutes : Option Int
  version : Option String
deriving DecidableEq

/-- Resolved scaling of a pool: exactly one of fixed replicas or an
autoscaling range. -/
inductive Scaling where
  | fixed (replicas : Int)
  | autoscaled (minReplicas maxReplicas : Int)
deriving DecidableEq

/-! ## CreateMachinePool (machinepool.go:83-576), stage by stage -/

/-- Modelled from the spec: `securitygroups.MachinePoolSecurityGroupFlag` is
declared in `pkg/interactive/securitygroups`, which is not part of the
excerpt; the spec (§6) only calls it "the security-group flag". -/
def machinePoolSecurityGroupFlag : String := "additional-compute-security-group-ids"

/-- Modelled from the spec: `versions.MajorMinorPatchFormattedErrorOutput` is
declared in `pkg/helper/versions`, which is not part of the excerpt; it wraps
the error of formatting the minimum supported version. -/
def majorMinorPatchFormattedErrorOutput (e : String) : String :=
  "There was a problem formatting the version: " ++ e

def subnetAzConflictMsg : String :=
  "Setting both `subnet` and `availability-zone` flag is not supported." ++
    " Please select `subnet` or `availability-zone` to create a single availability zone machine pool"

/-- Embeds the flag-compatibility validations of machinepool.go:86-138.
Returns `isVersionCompatibleComputeSgIds` (the result of the unconditional
version comparison at lines 104-108), which the flow reuses at line 328. -/
def validateFlags (env : Env) : Except String Bool :=
  if env.flags.multiAvailabilityZone ∧ ¬env.cluster.multiAZ then
    .error "Setting the `multi-availability-zone` flag is only allowed for multi-AZ clusters"
  else if env.flags.availabilityZone ∧ ¬env.cluster.multiAZ then
    .error "Setting the `availability-zone` flag is only allowed for multi-AZ clusters"
  else if ¬env.cluster.byoVpc ∧ env.flags.subnet then
    .error "Setting the `subnet` flag is only allowed for BYO VPC clusters"
  else
    match env.rt.sgVersionCompat with
    | .error e => .error s!"There was a problem checking version compatibility: {e}"
    | .ok isVersionCompatibleComputeSgIds =>
      if env.flags.securityGroupIds ∧ ¬env.cluster.byoVpc then
        .error s!"Setting the `{machinePoolSecurityGroupFlag}` flag is only allowed for BYOVPC clusters"
      else if env.flags.securityGroupIds ∧ ¬isVersionCompatibleComputeSgIds then
        match env.rt.formatSgMinVersion with
        | .error e => .error (majorMinorPatchFormattedErrorOutput e)
        | .ok formattedVersion =>
          .error s!"Parameter \x27{machinePoolSecurityGroupFlag}\x27 is not supported prior to version \x27{formattedVersion}\x27"
      else if env.flags.subnet ∧ env.flags.availabilityZone then
        .error subnetAzConflictMsg
      else if env.flags.availabilityZone ∧ env.flags.multiAvailabilityZone ∧ env.args.multiAvailabilityZone then
        .error ("Setting the `availability-zone` flag is only supported for creating a single AZ " ++
          "machine pool in a multi-AZ cluster")
      else if env.flags.subnet ∧ env.flags.multiAvailabilityZone ∧ env.args.multiAvailabilityZone then
        .error "Setting the `subnet` flag is only supported for creating a single AZ machine pool"
      else .ok isVersionCompatibleComputeSgIds

/-- Embeds the machine pool name resolution of machinepool.go:145-167 (also
lines 663-685 of `CreateNodePools`, which are identical).  Returns the
resolved name and the interactive toggle, which line 148 may have switched
on. -/
def resolveName (env : Env) : Except String (String × Bool) :=
  let name0 := trimSpaceTab env.args.name
  let intOn := env.interactiveEnabled || name0 == ""
  match (if name0 = "" ∨ intOn then
           match env.prompts.name name0 with
           | .error e => Except.error s!"Expected a valid name for the machine pool: {e}"
           | .ok n => Except.ok n
         else Except.ok name0) with
  | .error e => .error e
  | .ok name1 =>
    let name2 := trimSpaceTab name1
    if machinePoolKeyMatch name2 then .ok (name2, intOn)
    else .error "Expected a valid name for the machine pool"

/-- Modelled from the spec: `getSubnetFromUser` is defined in another file of
`pkg/machinepool` that is not part of the excerpt.  Per the spec (§4.1 step
3), it returns the explicitly set `subnet` flag value when present and
otherwise, in interactive sessions, offers a prompted list of VPC subnets (an
empty answer meaning no subnet); non-interactive sessions with no explicit
subnet yield no subnet. -/
def getSubnetFromUser (env : Env) (intOn : Bool) (isSubnetSet : Bool) : Except String String :=
  if isSubnetSet then .ok env.args.subnet
  else if intOn then env.prompts.subnetFromUser
  else .ok ""

/-- Embeds the placement resolution of machinepool.go:169-235.  Returns
`(subnet, multiAZMachinePool, availabilityZone)`. -/
def resolvePlacement (env : Env) (intOn : Bool) : Except String (String × Bool × String) :=
  match (if ¬env.cluster.multiAZ ∧ env.cluster.byoVpc then
           getSubnetFromUser env intOn env.flags.subnet
         else .ok "") with
  | .error e => .error e
  | .ok subnet0 =>
    if env.cluster.multiAZ then
      let isMultiAvailabilityZoneSet := env.flags.multiAvailabilityZone || env.flags.availabilityZone || env.flags.subnet
      let argsMultiAZ := if env.flags.availabilityZone || env.flags.subnet then false else env.args.multiAvailabilityZone
      match (if ¬isMultiAvailabilityZoneSet ∧ intOn ∧ ¬env.confirmYes then
               match env.prompts.multiAZMachinePool true with
               | .error _ => Except.error "Expected a valid value for create multi-AZ machine pool"
               | .ok b => Except.ok b
             else Except.ok argsMultiAZ) with
      | .error e => .error e
      | .ok multiAZMachinePool =>
        if multiAZMachinePool then .ok (subnet0, true, "")
        else
          match (if env.cluster.byoVpc ∧ env.args.availabilityZone = "" then
                   getSubnetFromUser env intOn env.flags.subnet
                 else .ok subnet0) with
          | .error e => .error e
          | .ok subnet =>
            if subnet = "" then
              match env.cluster.availabilityZones with
              | [] => .error "panic: index out of range"
              | az0 :: _ =>
                match (if ¬env.flags.availabilityZone ∧ intOn then
                         match env.prompts.availabilityZone az0 with
                         | .error e => Except.error s!"Expected a valid AWS availability zone: {e}"
                         | .ok az => Except.ok az
                       else if env.flags.availabilityZone then Except.ok env.args.availabilityZone
                       else Except.ok az0) with
                | .error e => .error e
                | .ok availabilityZone =>
                  if env.cluster.availabilityZones.contains availabilityZone then
                    .ok (subnet, false, availabilityZone)
                  else
                    .error s!"Availability zone \x27{availabilityZone}\x27 doesn\x27t belong to the cluster\x27s availability zones"
            else .ok (subnet, false, "")
    else .ok (subnet0, false, "")

/-- Embeds the autoscaling toggle resolution of machinepool.go:247-258 (and
the identical lines 760-771 of `CreateNodePools`): the interactive prompt is
offered only when no replica-related flag was set and autoscaling is not
already on. -/
def resolveAutoscalingFlag (intOn : Bool) (f : Flags) (args : Args) (pr : Prompts) :
    Except String Bool :=
  if ¬f.replicas ∧ ¬args.autoscalingEnabled ∧ ¬f.enableAutoscaling ∧ intOn then
    match pr.enableAutoscaling args.autoscalingEnabled with
    | .error e => .error s!"Expected a valid value for enable-autoscaling: {e}"
    | .ok b => .ok b
  else .ok args.autoscalingEnabled

/-- Embeds the scaling resolution of machinepool.go:237-325: mutual
exclusivity of autoscaling and fixed replicas at the flag level, prompting,
and the replica-count validators. -/
def resolveScaling (intOn : Bool) (f : Flags) (args : Args) (pr : Prompts)
    (multiAZMachinePool : Bool) : Except String Scaling :=
  match resolveAutoscalingFlag intOn f args pr with
  | .error e => .error e
  | .ok true =>
    if f.replicas then .error "Replicas can\x27t be set when autoscaling is enabled"
    else
      match (if intOn ∨ ¬f.minReplicas then
               match pr.minReplicas args.minReplicas with
               | .error e => Except.error s!"Expected a valid number of min replicas: {e}"
               | .ok v => Except.ok v
             else Except.ok args.minReplicas) with
      | .error e => .error e
      | .ok minReplicas =>
        match minReplicaValidator multiAZMachinePool minReplicas with
        | .error e => .error e
        | .ok _ =>
          match (if intOn ∨ ¬f.maxReplicas then
                   match pr.maxReplicas args.maxReplicas with
                   | .error e => Except.error s!"Expected a valid number of max replicas: {e}"
                   | .ok v => Except.ok v
                 else Except.ok args.maxReplicas) with
          | .error e => .error e
          | .ok maxReplicas =>
            match maxReplicaValidator minReplicas multiAZMachinePool maxReplicas with
            | .error e => .error e
            | .ok _ => .ok (.autoscaled minReplicas maxReplicas)
  | .ok false =>
    if f.minReplicas ∨ f.maxReplicas then
      .error "Autoscaling must be enabled in order to set min and max replicas"
    else
      match (if intOn ∨ ¬f.replicas then
               match pr.replicas args.replicas with
               | .error e => Except.error s!"Expected a valid number of replicas: {e}"
               | .ok v => Except.ok v
             else Except.ok args.replicas) with
      | .error e => .error e
      | .ok replicas =>
        match minReplicaValidator multiAZMachinePool replicas with
        | .error e => .error e
        | .ok _ => .ok (.fixed replicas)

/-- Embeds the security-group resolution of machinepool.go:327-337. -/
def resolveSecurityGroups (env : Env) (intOn : Bool) (isVersionCompatibleComputeSgIds : Bool) :
    Except String (List String) :=
  match (if intOn ∧ isVersionCompatibleComputeSgIds ∧ env.cluster.byoVpc ∧
            ¬env.flags.securityGroupIds then
           env.prompts.securityGroups
         else .ok env.args.securityGroupIds) with
  | .error e => .error e
  | .ok sg => .ok (sg.map goTrimSpace)

/-- Embeds `getMachinePoolAvailabilityZones` (machinepool.go:582-602). -/
def getMachinePoolAvailabilityZones (rt : Runtime) (cluster : Cluster)
    (multiAZMachinePool : Bool) (availabilityZoneUserInput subnetUserInput : String) :
    Except String (List String) :=
  if cluster.multiAZ ∧ ¬multiAZMachinePool ∧ availabilityZoneUserInput ≠ "" then
    .ok [availabilityZoneUserInput]
  else if subnetUserInput ≠ "" then
    match rt.getSubnetAvailabilityZone subnetUserInput with
    | .error e => .error e
    | .ok availabilityZone => .ok [availabilityZone]
  else .ok cluster.availabilityZones

/-- Embeds the instance-type selection and validation of
machinepool.go:361-394 (the supply check at lines 341-343 happens earlier,
before the availability-zone filter is computed, and is kept at its place in
`createMachinePool`).  The Go code would panic indexing `Items[0]` of an
empty list; that panic is modelled as an error result. -/
def chooseInstanceType (env : Env) (intOn : Bool) (azFilter : List String) :
    Except String String :=
  match env.rt.getAvailableMachineTypesInRegion azFilter with
  | .error e => .error e
  | .ok instanceTypeList =>
    match (if intOn then
             match (if env.args.instanceType = "" then
                      match instanceTypeList with
                      | [] => Except.error "panic: index out of range"
                      | t0 :: _ => Except.ok t0
                    else Except.ok env.args.instanceType) with
             | .error e => Except.error e
             | .ok it0 =>
               match env.prompts.instanceType it0 with
               | .error e => Except.error s!"Expected a valid instance type: {e}"
               | .ok it => Except.ok it
           else Except.ok env.args.instanceType) with
    | .error e => .error e
    | .ok instanceType =>
      match env.rt.validateMachineType instanceType env.cluster.multiAZ with
      | .error e => .error s!"Expected a valid instance type: {e}"
      | .ok _ => .ok instanceType

/-- Embeds machinepool.go:451-460: validate the resolved spot max price, then
parse it unless it is the literal `"on-demand"`, in which case no max price
is carried. -/
def computeMaxPrice (spotMaxPrice : String) : Except String (Option Decimal) :=
  match spotMaxPriceValidator spotMaxPrice with
  | .error e => .error e
  | .ok _ =>
    if spotMaxPrice ≠ "on-demand" then .ok (some ((parseFloat? spotMaxPrice).getD ⟨0, 0⟩))
    else .ok none

/-- Embeds the spot-instance resolution of machinepool.go:402-460.  Returns
`(useSpotInstances, maxPrice)`. -/
def resolveSpot (env : Env) (intOn : Bool) (azFilter : List String) (subnet : String) :
    Except String (Bool × Option Decimal) :=
  if env.flags.spotMaxPrice ∧ env.flags.useSpotInstances ∧ ¬env.args.useSpotInstances then
    .error "Can\x27t set max price when not using spot instances"
  else
    match (if subnet ≠ "" then
             match azFilter with
             | [] => Except.error "panic: index out of range"
             | az0 :: _ => env.rt.isLocalAvailabilityZone az0
           else .ok false) with
    | .error e => .error e
    | .ok isLocalZone =>
      if isLocalZone ∧ env.args.useSpotInstances then
        .error "Spot instances are not supported for local zones"
      else
        match (if ¬env.flags.useSpotInstances ∧ ¬env.flags.spotMaxPrice ∧ ¬isLocalZone ∧ intOn then
                 match env.prompts.useSpotInstances env.args.useSpotInstances with
                 | .error e => Except.error s!"Expected a valid value for use spot instances: {e}"
                 | .ok b => Except.ok b
               else Except.ok env.args.useSpotInstances) with
        | .error e => .error e
        | .ok useSpotInstances =>
          match (if useSpotInstances ∧ ¬env.flags.spotMaxPrice ∧ intOn then
                   match env.prompts.spotMaxPrice env.args.spotMaxPrice with
                   | .error e => Except.error s!"Expected a valid value for spot max price: {e}"
                   | .ok s => Except.ok s
                 else Except.ok env.args.spotMaxPrice) with
          | .error e => .error e
          | .ok spotMaxPrice =>
            match computeMaxPrice spotMaxPrice with
            | .error e => .error e
            | .ok maxPrice => .ok (useSpotInstances, maxPrice)

/-- Modelled from the spec: `helper.GigybyteStringer` is declared in
`pkg/helper`, which is not part of the excerpt; it renders a GiB count as a
string with the `GiB` suffix. -/
def gigybyteStringer (n : Int) : String := s!"{n}GiB"

/-- Embeds the root-disk-size resolution of machinepool.go:505-552.  Returns
the root volume size to put in the request, or `none` when the field is
omitted (size not given, or equal to the platform default). -/
def resolveRootDiskSize (env : Env) (intOn : Bool) : Except String (Option Int) :=
  let defaultRootDiskSize := env.rt.defaultRootDiskSize
  if env.args.rootDiskSize ≠ "" ∨ intOn then
    let rootDiskSizeStr :=
      if env.args.rootDiskSize = "" then gigybyteStringer defaultRootDiskSize
      else env.args.rootDiskSize
    match (if intOn then
             match env.prompts.rootDiskSize rootDiskSizeStr with
             | .error e => Except.error s!"Expected a valid machine pool root disk size value: {e}"
             | .ok s => Except.ok s
           else Except.ok rootDiskSizeStr) with
    | .error e => .error e
    | .ok sizeStr =>
      match env.rt.parseDiskSizeToGigibyte sizeStr with
      | .error e => .error s!"Expected a valid machine pool root disk size value \x27{sizeStr}\x27: {e}"
      | .ok rootDiskSize =>
        match env.rt.validateRootDiskSize env.cluster.versionRawId rootDiskSize with
        | .error e => .error e
        | .ok _ => .ok (if rootDiskSize ≠ defaultRootDiskSize then some rootDiskSize else none)
  else .ok none

def scalingToAutoscaling : Scaling → Option (Int × Int)
  | .autoscaled mn mx => some (mn, mx)
  | .fixed _ => none

def scalingToReplicas : Scaling → Option Int
  | .fixed n => some n
  | .autoscaled _ _ => none

/-- Embeds the request assembly of machinepool.go:464-503 (plus the root
volume from lines 549-551).  Setting an empty list is indistinguishable from
not setting it, mirroring the `len > 0` guards of the builder calls. -/
def buildMachinePoolRequest (env : Env) (name instanceType : String) (scaling : Scaling)
    (securityGroupIds : List String) (useSpotInstances : Bool) (maxPrice : Option Decimal)
    (multiAZMachinePool : Bool) (availabilityZone subnet : String)
    (rootVolumeSize : Option Int) : MachinePoolRequest :=
  { id := name
    instanceType := instanceType
    labels := env.rt.getLabelMap env.args.labels
    taints := env.rt.getTaints env.args.taints
    autoscaling := scalingToAutoscaling scaling
    replicas := scalingToReplicas scaling
    aws :=
      { spotMarketOptions := if useSpotInstances then some { maxPrice := maxPrice } else none
        additionalSecurityGroupIds := securityGroupIds
        tags := env.rt.getAwsTags env.args.tags }
    availabilityZones :=
      if env.cluster.multiAZ ∧ ¬multiAZMachinePool ∧ availabilityZone ≠ "" then [availabilityZone]
      else []
    subnets := if subnet ≠ "" then [subnet] else []
    rootVolumeSize := rootVolumeSize }

/-- Embeds `CreateMachinePool` (machinepool.go:83-576).  `.ok` carries the
machine pool request submitted to the create API call; `.error` means the
operation aborted before that call. -/
def createMachinePool (env : Env) : Except String MachinePoolRequest :=
  match validateFlags env with
  | .error e => .error e
  | .ok isVersionCompatibleComputeSgIds =>
    match resolveName env with
    | .error e => .error e
    | .ok (name, intOn) =>
      match resolvePlacement env intOn with
      | .error e => .error e
      | .ok (subnet, multiAZMachinePool, availabilityZone) =>
        match resolveScaling intOn env.flags env.args env.prompts multiAZMachinePool with
        | .error e => .error e
        | .ok scaling =>
          match resolveSecurityGroups env intOn isVersionCompatibleComputeSgIds with
          | .error e => .error e
          | .ok securityGroupIds =>
            if env.args.instanceType = "" ∧ ¬intOn then
              .error "You must supply a valid instance type"
            else
              match getMachinePoolAvailabilityZones env.rt env.cluster multiAZMachinePool
                  availabilityZone subnet with
              | .error e => .error e
              | .ok azFilter =>
                match chooseInstanceType env intOn azFilter with
                | .error e => .error e
                | .ok instanceType =>
                  match resolveSpot env intOn azFilter subnet with
                  | .error e => .error e
                  | .ok (useSpotInstances, maxPrice) =>
                    match resolveRootDiskSize env intOn with
                    | .error e => .error e
                    | .ok rootVolumeSize =>
                      .ok (buildMachinePoolRequest env name instanceType scaling
                        securityGroupIds useSpotInstances maxPrice multiAZMachinePool
                        availabilityZone subnet rootVolumeSize)

/-! ## CreateNodePools (machinepool.go:652-1093), stage by stage -/

/-- Embeds the OpenShift version resolution of machinepool.go:687-734.  The
version list, the minimal hosted machine pool version, the filtering and the
final validation are external collaborators. -/
def resolveNodePoolVersion (env : Env) (intOn : Bool) : Except String String :=
  if env.flags.version ∨ intOn then
    match env.rt.getVersionList with
    | .error e => .error e
    | .ok versionList =>
      match env.rt.getMinimalHostedMachinePoolVersion env.cluster.versionRawId with
      | .error e => .error e
      | .ok minVersion =>
        let filteredVersionList :=
          env.rt.getFilteredVersionList versionList minVersion env.cluster.versionRawId
        let version0 := if env.args.version = "" then env.cluster.versionRawId else env.args.version
        match (if intOn then
                 match env.prompts.openshiftVersion version0 with
                 | .error e => Except.error s!"Expected a valid OpenShift version: {e}"
                 | .ok v => Except.ok v
               else Except.ok version0) with
        | .error e => .error e
        | .ok version1 =>
          match env.rt.validateVersion version1 filteredVersionList with
          | .error e => .error s!"Expected a valid OpenShift version: {e}"
          | .ok version2 => .ok version2
  else .ok env.args.version

/-- Modelled from the spec: `machinepools.MinNodePoolReplicaValidator` lives
in `pkg/helper/machinepools`, which is not part of the excerpt.  The spec
(§4.2) requires replica counts to be non-negative (node pools have no
multi-AZ divisibility rule). -/
def minNodePoolReplicaValidator (_autoscaling : Bool) (v : Int) : Except String Unit :=
  if v < 0 then .error "min-replicas must be a non-negative integer" else .ok ()

/-- Modelled from the spec: `machinepools.MaxNodePoolReplicaValidator` lives
in `pkg/helper/machinepools`, which is not part of the excerpt.  The spec
(§4.2) requires `max ≥ min`. -/
def maxNodePoolReplicaValidator (minReplicas maxReplicas : Int) : Except String Unit :=
  if minReplicas > maxReplicas then .error "max-replicas must be greater or equal to min-replicas"
  else .ok ()

/-- Embeds the node pool scaling resolution of machinepool.go:750-839, which
repeats the machine pool logic with the node pool validators. -/
def resolveNodePoolScaling (intOn : Bool) (f : Flags) (args : Args) (pr : Prompts) :
    Except String Scaling :=
  match resolveAutoscalingFlag intOn f args pr with
  | .error e => .error e
  | .ok true =>
    if f.replicas then .error "Replicas can\x27t be set when autoscaling is enabled"
    else
      match (if intOn ∨ ¬f.minReplicas then
               match pr.minReplicas args.minReplicas with
               | .error e => Except.error s!"Expected a valid number of min replicas: {e}"
               | .ok v => Except.ok v
             else Except.ok args.minReplicas) with
      | .error e => .error e
      | .ok minReplicas =>
        match minNodePoolReplicaValidator true minReplicas with
        | .error e => .error e
        | .ok _ =>
          match (if intOn ∨ ¬f.maxReplicas then
                   match pr.maxReplicas args.maxReplicas with
                   | .error e => Except.error s!"Expected a valid number of max replicas: {e}"
                   | .ok v => Except.ok v
                 else Except.ok args.maxReplicas) with
          | .error e => .error e
          | .ok maxReplicas =>
            match maxNodePoolReplicaValidator minReplicas maxReplicas with
            | .error e => .error e
            | .ok _ => .ok (.autoscaled minReplicas maxReplicas)
  | .ok false =>
    if f.minReplicas ∨ f.maxReplicas then
      .error "Autoscaling must be enabled in order to set min and max replicas"
    else
      match (if intOn ∨ ¬f.replicas then
               match pr.replicas args.replicas with
               | .error e => Except.error s!"Expected a valid number of replicas: {e}"
               | .ok v => Except.ok v
             else Except.ok args.replicas) with
      | .error e => .error e
      | .ok replicas =>
        match minNodePoolReplicaValidator false replicas with
        | .error e => .error e
        | .ok _ => .ok (.fixed replicas)

/-- Embeds the node pool security-group resolution of machinepool.go:847-862;
the feature gate `features.IsFeatureSupported` is an external collaborator
keyed on the resolved OpenShift version. -/
def resolveNodePoolSecurityGroups (env : Env) (intOn : Bool) (version : String) :
    Except String (List String) :=
  match env.rt.isFeatureSupportedSgHcp version with
  | .error e => .error e
  | .ok isVersionCompatibleSecurityGroupIds =>
    match (if intOn ∧ ¬env.flags.securityGroupIds ∧ isVersionCompatibleSecurityGroupIds then
             env.prompts.securityGroups
           else Except.ok env.args.securityGroupIds) with
    | .error e => .error e
    | .ok sg => .ok (sg.map goTrimSpace)

/-- Embeds machinepool.go:901-911: the instance-type filter is the cluster's
availability zones, replaced by the subnet's zone when a subnet was chosen. -/
def nodePoolAzFilter (env : Env) (subnet : String) : Except String (List String) :=
  if subnet ≠ "" then
    match env.rt.getSubnetAvailabilityZone subnet with
    | .error e => .error e
    | .ok availabilityZone => .ok [availabilityZone]
  else .ok env.cluster.availabilityZones

/-- Embeds the autorepair resolution of machinepool.go:944-955. -/
def resolveAutorepair (env : Env) (intOn : Bool) : Except String Bool :=
  if intOn then
    match env.prompts.autorepair env.args.autorepair with
    | .error e => .error s!"Expected a valid value for autorepair: {e}"
    | .ok b => .ok b
  else .ok env.args.autorepair

/-- Embeds the tuning-config resolution of machinepool.go:959-993: input is
silently dropped when the cluster offers no tuning configs. -/
def resolveTuningConfigs (env : Env) (intOn : Bool) : Except String (List String) :=
  match env.rt.getTuningConfigsName with
  | .error e => .error e
  | .ok availableTuningConfigs =>
    let input0 :=
      if env.args.tuningConfigs ≠ "" then
        if availableTuningConfigs.length > 0 then env.args.tuningConfigs.splitOn "," else []
      else []
    match (if intOn ∧ availableTuningConfigs.length > 0 then
             match env.prompts.tuningConfigs input0 with
             | .error e => Except.error s!"Expected a valid value for tuning configs: {e}"
             | .ok l => Except.ok l
           else Except.ok input0) with
    | .error e => .error e
    | .ok l => .ok l

/-- Modelled from the spec: `ValidateKubeletConfig` is defined in another
file of `pkg/machinepool` that is not part of the excerpt; the spec (§4.1
step 9) only says kubelet-config names are resolved against the cluster's
available set, so the model accepts every input list. -/
def validateKubeletConfig (_ : List String) : Except String Unit := .ok ()

/-- Embeds the kubelet-config resolution of machinepool.go:995-1040,
including the Go quirk that splitting the empty string on `,` yields a list
holding one empty name. -/
def resolveKubeletConfigs (env : Env) (intOn : Bool) : Except String (List String) :=
  if env.args.kubeletConfigs ≠ "" ∨ intOn then
    match env.rt.listKubeletConfigNames with
    | .error e => .error e
    | .ok availableKubeletConfigs =>
      let input0 :=
        if availableKubeletConfigs.length > 0 then env.args.kubeletConfigs.splitOn "," else []
      match (if intOn ∧ availableKubeletConfigs.length > 0 then
               match env.prompts.kubeletConfigs input0 with
               | .error e => Except.error s!"Expected a valid value for kubelet config: {e}"
               | .ok l => Except.ok l
             else Except.ok input0) with
      | .error e => .error e
      | .ok input1 =>
        match validateKubeletConfig input1 with
        | .error e => .error e
        | .ok _ => .ok input1
  else .ok []

/-- Embeds the node-drain grace period resolution of machinepool.go:1044-1065;
the period builder is an external collaborator returning the parsed minutes. -/
def resolveNodeDrain (env : Env) (intOn : Bool) : Except String (Option Int) :=
  match (if intOn then
           match env.prompts.nodeDrainGracePeriod env.args.nodeDrainGracePeriod with
           | .error e => Except.error s!"Expected a valid value for Node drain grace period: {e}"
           | .ok s => Except.ok s
         else Except.ok env.args.nodeDrainGracePeriod) with
  | .error e => .error e
  | .ok nodeDrainGracePeriod =>
    if nodeDrainGracePeriod ≠ "" then
      match env.rt.createNodeDrainGracePeriodBuilder nodeDrainGracePeriod with
      | .error e => .error e
      | .ok minutes => .ok (some minutes)
    else .ok none

def addSubnetToMap (m : List (String × List String)) (az s : String) :
    List (String × List String) :=
  match m with
  | [] => [(az, [s])]
  | (a, ss) :: rest => if a = az then (a, ss ++ [s]) :: rest else (a, ss) :: addSubnetToMap rest az s

/-- Embeds the `subnetsMap` construction of machinepool.go:1104-1113 as an
association list keyed by availability zone (Go iterates a map whose order
is unspecified; the order only feeds prompt options, which are oracles
here). -/
def buildSubnetsMap (privateSubnets : List (String × String)) : List (String × List String) :=
  privateSubnets.foldl (fun m p => addSubnetToMap m p.1 p.2) []

def lookupAssoc (m : List (String × List String)) (k : String) : Option (List String) :=
  match m with
  | [] => none
  | (a, ss) :: rest => if a = k then some ss else lookupAssoc rest k

/-- Embeds `getSubnetFromAvailabilityZone` (machinepool.go:1095-1149).
Returns the chosen subnet together with the interactive toggle, which the
ambiguous-subnet branch switches on (line 1140).  The Go code would panic
indexing an empty slice; that panic is modelled as an error result. -/
def getSubnetFromAvailabilityZone (env : Env) (intOn : Bool) (isAvailabilityZoneSet : Bool) :
    Except String (String × Bool) :=
  match (match env.cluster.subnetIds with
         | [] => Except.error "panic: index out of range"
         | s0 :: _ => env.rt.getVPCPrivateSubnets s0) with
  | .error e => .error e
  | .ok privateSubnets =>
    let subnetsMap := buildSubnetsMap privateSubnets
    match env.cluster.availabilityZones with
    | [] => .error "panic: index out of range"
    | az0 :: _ =>
      match (if ¬isAvailabilityZoneSet ∧ intOn then
               match env.prompts.azNodePool az0 with
               | .error e => Except.error s!"Expected a valid AWS availability zone: {e}"
               | .ok az => Except.ok az
             else if isAvailabilityZoneSet then Except.ok env.args.availabilityZone
             else Except.ok az0) with
      | .error e => .error e
      | .ok availabilityZone =>
        match lookupAssoc subnetsMap availabilityZone with
        | some subnets =>
          match subnets with
          | [s] => .ok (s, intOn)
          | _ =>
            match getSubnetFromUser env true false with
            | .error e => .error e
            | .ok s => .ok (s, true)
        | none =>
          .error s!"Failed to find a private subnet for \x27{availabilityZone}\x27 availability zone"

/-- Embeds `CreateNodePools` (machinepool.go:652-1093).  `.ok` carries the
node pool request submitted to the create API call; `.error` means the
operation aborted before that call. -/
def createNodePools (env : Env) : Except String NodePoolRequest :=
  if env.flags.subnet ∧ env.flags.availabilityZone then .error subnetAzConflictMsg
  else
    match resolveName env with
    | .error e => .error e
    | .ok (name, intOn) =>
      match resolveNodePoolVersion env intOn with
      | .error e => .error e
      | .ok version =>
        match getSubnetFromUser env intOn env.flags.subnet with
        | .error e => .error e
        | .ok subnet0 =>
          match (if subnet0 = "" then
                   getSubnetFromAvailabilityZone env intOn env.flags.availabilityZone
                 else Except.ok (subnet0, intOn)) with
          | .error e => .error e
          | .ok (subnet, intOn2) =>
            match resolveNodePoolScaling intOn2 env.flags env.args env.prompts with
            | .error e => .error e
            | .ok scaling =>
              match resolveNodePoolSecurityGroups env intOn2 version with
              | .error e => .error e
              | .ok securityGroupIds =>
                if env.args.instanceType = "" ∧ ¬intOn2 then
                  .error "You must supply a valid instance type"
                else
                  match nodePoolAzFilter env subnet with
                  | .error e => .error e
                  | .ok azFilter =>
                    match chooseInstanceType env intOn2 azFilter with
                    | .error e => .error e
                    | .ok instanceType =>
                      match resolveAutorepair env intOn2 with
                      | .error e => .error e
                      | .ok autorepair =>
                        match resolveTuningConfigs env intOn2 with
                        | .error e => .error e
                        | .ok tuningConfigs =>
                          match resolveKubeletConfigs env intOn2 with
                          | .error e => .error e
                          | .ok kubeletConfigs =>
                            match resolveNodeDrain env intOn2 with
                            | .error e => .error e
                            | .ok nodeDrainGracePeriodMinutes =>
                              .ok { id := name
                                    labels := env.rt.getLabelMap env.args.labels
                                    taints := env.rt.getTaints env.args.taints
                                    autoscaling := scalingToAutoscaling scaling
                                    replicas := scalingToReplicas scaling
                                    subnet := if subnet ≠ "" then some subnet else none
                                    autoRepair := autorepair
                                    tuningConfigs := tuningConfigs
                                    kubeletConfigs := kubeletConfigs
                                    awsNodePool :=
                                      { instanceType := instanceType
                                        additionalSecurityGroupIds := securityGroupIds
                                        tags := env.rt.getAwsTags env.args.tags }
                                    nodeDrainGracePeriodMinutes := nodeDrainGracePeriodMinutes
                                    version := if version ≠ "" then some version else none }

/-! ## Concrete environments used to evaluate the embedded operations -/

/-- Flag set with no flag explicitly changed. -/
def baseFlags : Flags where
  multiAvailabilityZone := false
  availabilityZone := false
  subnet := false
  securityGroupIds := false
  minReplicas := false
  maxReplicas := false
  enableAutoscaling := false
  replicas := false
  useSpotInstances := false
  spotMaxPrice := false
  version := false

/-- Arguments of a plain non-interactive invocation. -/
def baseArgs : Args where
  name := "workers"
  instanceType := "m5.xlarge"
  replicas := 2
  autoscalingEnabled := false
  minReplicas := 0
  maxReplicas := 0
  labels := ""
  taints := ""
  useSpotInstances := false
  spotMaxPrice := "on-demand"
  multiAvailabilityZone := true
  availabilityZone := ""
  subnet := ""
  version := ""
  autorepair := true
  tuningConfigs := ""
  kubeletConfigs := ""
  rootDiskSize := ""
  securityGroupIds := []
  nodeDrainGracePeriod := ""
  tags := []

/-- A single-AZ, platform-network classic cluster. -/
def baseCluster : Cluster where
  multiAZ := false
  byoVpc := false
  availabilityZones := ["us-east-1a"]
  versionRawId := "4.14.0"
  subnetIds := ["subnet-1"]

/-- Prompt oracles that echo each prompt's default. -/
def okPrompts : Prompts where
  name d := .ok d
  multiAZMachinePool d := .ok d
  availabilityZone d := .ok d
  enableAutoscaling d := .ok d
  minReplicas d := .ok d
  maxReplicas d := .ok d
  replicas d := .ok d
  securityGroups := .ok []
  instanceType d := .ok d
  useSpotInstances d := .ok d
  spotMaxPrice d := .ok d
  rootDiskSize d := .ok d
  subnetFromUser := .ok ""
  openshiftVersion d := .ok d
  autorepair d := .ok d
  tuningConfigs d := .ok d
  kubeletConfigs d := .ok d
  nodeDrainGracePeriod d := .ok d
  azNodePool d := .ok d

/-- External collaborators that always succeed. -/
def baseRuntime : Runtime where
  sgVersionCompat := .ok true
  formatSgMinVersion := .ok "4.11.0"
  getSubnetAvailabilityZone _ := .ok "us-east-1a"
  isLocalAvailabilityZone _ := .ok false
  getAvailableMachineTypesInRegion _ := .ok ["m5.xlarge"]
  validateMachineType _ _ := .ok ()
  getLabelMap _ := []
  getTaints _ := []
  getAwsTags _ := []
  defaultRootDiskSize := 300
  parseDiskSizeToGigibyte _ := .ok 300
  validateRootDiskSize _ _ := .ok ()
  getVPCPrivateSubnets _ := .ok [("us-east-1a", "subnet-1")]
  getVersionList := .ok ["4.14.0"]
  getMinimalHostedMachinePoolVersion _ := .ok "4.12.0"
  getFilteredVersionList l _ _ := l
  validateVersion v _ := .ok v
  isFeatureSupportedSgHcp _ := .ok true
  getTuningConfigsName := .ok []
  listKubeletConfigNames := .ok []
  createNodeDrainGracePeriodBuilder _ := .ok 0

/-- A plain non-interactive invocation on `baseCluster`. -/
def baseEnv : Env where
  flags := baseFlags
  args := baseArgs
  cluster := baseCluster
  rt := baseRuntime
  prompts := okPrompts
  interactiveEnabled := false
  confirmYes := false

/-- The multi-AZ classic cluster of the C6 scenario, with availability zones
`us-east-1a` and `us-east-1b`. -/
def clusterC6 : Cluster where
  multiAZ := true
  byoVpc := true
  availabilityZones := ["us-east-1a", "us-east-1b"]
  versionRawId := "4.14.0"
  subnetIds := ["subnet-1"]

/-- Invocation with both the `subnet` and `availability-zone` flags set, on a
non-multi-AZ cluster. -/
def envC1 : Env :=
  { baseEnv with flags := { baseFlags with subnet := true, availabilityZone := true } }

/-- Invocation with both the `subnet` and `availability-zone` flags set, on a
multi-AZ BYO-VPC cluster. -/
def envC1b : Env :=
  { baseEnv with
    flags := { baseFlags with subnet := true, availabilityZone := true }
    cluster := clusterC6 }

/-- Autoscaled invocation: min 1, max 2, non-interactive. -/
def envAuto : Env :=
  { baseEnv with
    flags := { baseFlags with enableAutoscaling := true, minReplicas := true, maxReplicas := true }
    args := { baseArgs with autoscalingEnabled := true, minReplicas := 1, maxReplicas := 2 } }

/-- The request `envAuto` submits to the create API call. -/
def reqAuto : MachinePoolRequest :=
  { id := "workers", instanceType := "m5.xlarge", labels := [], taints := [],
    autoscaling := some (1, 2), replicas := none,
    aws := { spotMarketOptions := none, additionalSecurityGroupIds := [], tags := [] },
    availabilityZones := [], subnets := [], rootVolumeSize := none }

/-- Security-group flag set on a managed-network cluster. -/
def envC7a : Env := { baseEnv with flags := { baseFlags with securityGroupIds := true } }

/-- Security-group flag set on a BYO-VPC cluster below the minimum version. -/
def envC7b : Env :=
  { baseEnv with
    flags := { baseFlags with securityGroupIds := true }
    cluster := { baseCluster with byoVpc := true }
    rt := { baseRuntime with sgVersionCompat := .ok false } }

/-- Invocation with the `replicas` flag set while autoscaling is enabled. -/
def envC8 : Env :=
  { baseEnv with
    flags := { baseFlags with replicas := true }
    args := { baseArgs with autoscalingEnabled := true } }

/-- Invocation with `spot-max-price` explicitly set to `0.01` and the
`use-spot-instances` flag untouched. -/
def envC9 : Env :=
  { baseEnv with
    flags := { baseFlags with spotMaxPrice := true }
    args := { baseArgs with spotMaxPrice := "0.01" } }

/-- The request `envC9` submits to the create API call: no spot options. -/
def reqC9 : MachinePoolRequest :=
  { id := "workers", instanceType := "m5.xlarge", labels := [], taints := [],
    autoscaling := none, replicas := some 2,
    aws := { spotMarketOptions := none, additionalSecurityGroupIds := [], tags := [] },
    availabilityZones := [], subnets := [], rootVolumeSize := none }

/-- Invocation with `spot-max-price` set and `use-spot-instances` explicitly
set to false. -/
def envC9b : Env :=
  { baseEnv with
    flags := { baseFlags with spotMaxPrice := true, useSpotInstances := true }
    args := { baseArgs with spotMaxPrice := "0.01" } }

/-! ## Helper lemmas about trimming and name resolution -/

theorem dropWhile_idem {α : Type} (p : α → Bool) (l : List α) :
    (l.dropWhile p).dropWhile p = l.dropWhile p := by
  induction l with
  | nil => rfl
  | cons a t ih =>
    by_cases h : p a
    · simp only [List.dropWhile_cons_of_pos h]; exact ih
    · have hf : p a = false := by simpa using h
      simp only [List.dropWhile_cons_of_neg h, List.dropWhile, hf]

theorem length_dropWhile_le {α : Type} (p : α → Bool) (l : List α) :
    (l.dropWhile p).length ≤ l.length := by
  induction l with
  | nil => simp
  | cons a t ih =>
    by_cases h : p a
    · simp only [List.dropWhile_cons_of_pos h]; exact Nat.le_succ_of_le ih
    · simp [List.dropWhile_cons_of_neg h]

theorem dropWhile_self_head_false {α : Type} (p : α → Bool) (a : α) (t : List α)
    (h : (a :: t).dropWhile p = a :: t) : p a = false := by
  by_cases hp : p a
  · exfalso
    rw [List.dropWhile_cons_of_pos hp] at h
    have h1 := congrArg List.length h
    have h2 := length_dropWhile_le p t
    simp only [List.length_cons] at h1
    omega
  · simpa using hp

theorem dropWhile_rev_append_singleton {α : Type} (p : α → Bool) (a : α) (ha : p a = false) :
    ∀ m : List α, (((m ++ [a]).dropWhile p).reverse).dropWhile p = ((m ++ [a]).dropWhile p).reverse := by
  intro m
  induction m with
  | nil => simp [List.dropWhile, ha]
  | cons b m' ih =>
    by_cases hb : p b
    · simpa only [List.cons_append, List.dropWhile_cons_of_pos hb] using ih
    · rw [List.cons_append, List.dropWhile_cons_of_neg hb]
      simp only [List.reverse_cons, List.reverse_append, List.reverse_singleton,
        List.singleton_append, List.cons_append, List.nil_append]
      exact List.dropWhile_cons_of_neg (by simp [ha])

theorem backdrop_front_ok {α : Type} (p : α → Bool) (l : List α) (h : l.dropWhile p = l) :
    ((l.reverse.dropWhile p).reverse).dropWhile p = (l.reverse.dropWhile p).reverse := by
  cases l with
  | nil => rfl
  | cons a t =>
    have ha := dropWhile_self_head_false p a t h
    have hc := dropWhile_rev_append_singleton p a ha t.reverse
    simpa [List.reverse_cons] using hc

theorem trim_list_idem {α : Type} (p : α → Bool) (d : List α) :
    ((((((d.dropWhile p).reverse.dropWhile p).reverse).dropWhile p).reverse).dropWhile p).reverse
      = ((d.dropWhile p).reverse.dropWhile p).reverse := by
  have hfront : (((d.dropWhile p).reverse.dropWhile p).reverse).dropWhile p
      = ((d.dropWhile p).reverse.dropWhile p).reverse :=
    backdrop_front_ok p (d.dropWhile p) (dropWhile_idem p d)
  rw [hfront, List.reverse_reverse, dropWhile_idem]

theorem trimSpaceTab_idem (s : String) : trimSpaceTab (trimSpaceTab s) = trimSpaceTab s := by
  show String.mk _ = String.mk _
  exact congrArg String.mk (trim_list_idem _ s.data)

theorem resolveName_nonInteractive (env : Env) (hint : env.interactiveEnabled = false)
    (hne : trimSpaceTab env.args.name ≠ "")
    (hm : machinePoolKeyMatch (trimSpaceTab env.args.name) = true) :
    resolveName env = .ok (trimSpaceTab env.args.name, false) := by
  have hbeq : (trimSpaceTab env.args.name == "") = false := by
    simpa using hne
  unfold resolveName
  rw [hint]
  simp only [Bool.false_or, hbeq, trimSpaceTab_idem]
  rw [if_neg (by simp [hne])]
  simp [trimSpaceTab_idem, hm]

theorem resolveName_nonInteractive_err (env : Env) (hint : env.interactiveEnabled = false)
    (hne : trimSpaceTab env.args.name ≠ "")
    (hm : machinePoolKeyMatch (trimSpaceTab env.args.name) = false) :
    resolveName env = .error "Expected a valid name for the machine pool" := by
  have hbeq : (trimSpaceTab env.args.name == "") = false := by
    simpa using hne
  unfold resolveName
  rw [hint]
  simp only [Bool.false_or, hbeq, trimSpaceTab_idem]
  rw [if_neg (by simp [hne])]
  simp [trimSpaceTab_idem, hm]

/-! ## Validator characterizations -/

theorem minReplicaValidator_ok_iff (mz : Bool) (n : Int) :
    minReplicaValidator mz n = .ok () ↔ 0 ≤ n ∧ (mz = true → n % 3 = 0) := by
  unfold minReplicaValidator
  by_cases h1 : n < 0
  · rw [if_pos h1]
    constructor
    · intro h; cases h
    · rintro ⟨h2, _⟩; omega
  · rw [if_neg h1]
    by_cases h2 : mz = true ∧ n % 3 ≠ 0
    · rw [if_pos h2]
      constructor
      · intro h; cases h
      · rintro ⟨_, h3⟩; exact absurd (h3 h2.1) h2.2
    · rw [if_neg h2]
      constructor
      · intro _
        refine ⟨by omega, fun hm => ?_⟩
        by_contra h3
        exact h2 ⟨hm, h3⟩
      · intro _; rfl

theorem maxReplicaValidator_ok_iff (mn : Int) (mz : Bool) (mx : Int) :
    maxReplicaValidator mn mz mx = .ok () ↔ mn ≤ mx ∧ (mz = true → mx % 3 = 0) := by
  unfold maxReplicaValidator
  by_cases h1 : mn > mx
  · rw [if_pos h1]
    constructor
    · intro h; cases h
    · rintro ⟨h2, _⟩; omega
  · rw [if_neg h1]
    by_cases h2 : mz = true ∧ mx % 3 ≠ 0
    · rw [if_pos h2]
      constructor
      · intro h; cases h
      · rintro ⟨_, h3⟩; exact absurd (h3 h2.1) h2.2
    · rw [if_neg h2]
      constructor
      · intro _
        refine ⟨by omega, fun hm => ?_⟩
        by_contra h3
        exact h2 ⟨hm, h3⟩
      · intro _; rfl

theorem resolveScaling_ok_valid (intOn : Bool) (f : Flags) (args : Args) (pr : Prompts)
    (mz : Bool) (s : Scaling) (h : resolveScaling intOn f args pr mz = .ok s) :
    (∀ n, s = .fixed n → minReplicaValidator mz n = .ok ()) ∧
    (∀ mn mx, s = .autoscaled mn mx →
      minReplicaValidator mz mn = .ok () ∧ maxReplicaValidator mn mz mx = .ok ()) := by
  unfold resolveScaling at h
  repeat' split at h
  all_goals try cases h
  all_goals refine ⟨fun n hn => ?_, fun mn mx hmm => ?_⟩
  all_goals first
    | ((cases hn) <;> assumption)
    | ((cases hmm) <;> exact ⟨by assumption, by assumption⟩)

theorem floatOverflowBound_eq : floatOverflowBound = (2 ^ 54 - 1) * 2 ^ 970 := by
  norm_num [floatOverflowBound]

theorem floatZeroBound_eq : floatZeroBound = 2 ^ 1075 := by
  norm_num [floatZeroBound]

theorem parseFloat?_finite (s : String) (d : Decimal) (h : parseFloat? s = some d) :
    parseGoFloat s = some (.finite d) := by
  unfold parseFloat? at h
  split at h
  · cases h
    assumption
  · cases h

theorem parseGoFloat_ne_onDemand (s : String) (v : GoFloat) (h : parseGoFloat s = some v) :
    s ≠ "on-demand" := by
  intro he
  rw [he] at h
  have hod : parseGoFloat "on-demand" = none := by decide
  rw [hod] at h
  cases h

theorem goFloatGT0_le0_false (v : GoFloat) (h : goFloatGT0 v = true) : goFloatLE0 v = false := by
  cases v with
  | nan => rfl
  | inf b =>
    simp only [goFloatGT0, Bool.not_eq_eq_eq_not, Bool.not_true] at h
    simp [goFloatLE0, h]
  | finite d =>
    simp only [goFloatGT0, decide_eq_true_eq] at h
    simp only [goFloatLE0, decide_eq_false_iff_not]
    omega

/-! ## Claims C2, C5, C4, C6 -/

/-- Claim C2: for multi-AZ machine pools the replica validators accept a
value only if it is divisible by 3 (`minReplicaValidator true` succeeds
exactly on non-negative multiples of 3, `maxReplicaValidator mn true` exactly
on values at least `mn` that are multiples of 3), while for single-AZ pools
(`multiAZMachinePool = false`) no divisibility constraint applies;
consequently any scaling resolved with `multiAZMachinePool = true` carries
only multiples of 3. -/
theorem claim_C2 :
    (∀ n : Int, minReplicaValidator true n = .ok () ↔ 0 ≤ n ∧ n % 3 = 0) ∧
    (∀ mn mx : Int, maxReplicaValidator mn true mx = .ok () ↔ mn ≤ mx ∧ mx % 3 = 0) ∧
    (∀ n : Int, minReplicaValidator false n = .ok () ↔ 0 ≤ n) ∧
    (∀ mn mx : Int, maxReplicaValidator mn false mx = .ok () ↔ mn ≤ mx) ∧
    (∀ (intOn : Bool) (f : Flags) (args : Args) (pr : Prompts) (s : Scaling),
      resolveScaling intOn f args pr true = .ok s →
      (∀ n, s = .fixed n → n % 3 = 0) ∧
      (∀ mn mx, s = .autoscaled mn mx → mn % 3 = 0 ∧ mx % 3 = 0)) := by
  refine ⟨fun n => ?_, fun mn mx => ?_, fun n => ?_, fun mn mx => ?_, ?_⟩
  · rw [minReplicaValidator_ok_iff]; simp
  · rw [maxReplicaValidator_ok_iff]; simp
  · rw [minReplicaValidator_ok_iff]; simp
  · rw [maxReplicaValidator_ok_iff]; simp
  · intro intOn f args pr s h
    obtain ⟨hf, ha⟩ := resolveScaling_ok_valid intOn f args pr true s h
    refine ⟨fun n hn => ?_, fun mn mx hmm => ?_⟩
    · exact ((minReplicaValidator_ok_iff true n).mp (hf n hn)).2 rfl
    · obtain ⟨h1, h2⟩ := ha mn mx hmm
      exact ⟨((minReplicaValidator_ok_iff true mn).mp h1).2 rfl,
        ((maxReplicaValidator_ok_iff mn true mx).mp h2).2 rfl⟩

/-- Claim C2 witness: the characterization applied at concrete values. -/
theorem claim_C2_witness :
    minReplicaValidator true 3 = .ok () ∧ maxReplicaValidator 3 true 6 = .ok () ∧
    minReplicaValidator false 2 = .ok () :=
  ⟨(claim_C2.1 3).mpr (by decide), ((claim_C2.2.1) 3 6).mpr (by decide),
    ((claim_C2.2.2.1) 2).mpr (by decide)⟩

/-- Claim C5: `spotMaxPriceValidator` accepts the exact string `on-demand`
and every string that `strconv.ParseFloat` parses to a float strictly greater
than zero (including the positive specials and hexadecimal literals), and
rejects with the source's messages every string that does not parse
(including range errors such as `1e400`) as well as every string parsing to
a value at most zero (including negative infinity and values rounding to
zero, such as `1e-400`). -/
theorem claim_C5 :
    spotMaxPriceValidator "on-demand" = .ok () ∧
    spotMaxPriceValidator "0.01" = .ok () ∧
    spotMaxPriceValidator "-1" = .error "Spot max price must be positive" ∧
    spotMaxPriceValidator "not-a-number" = .error "Expected a numeric value for spot max price" ∧
    (∀ (s : String) (v : GoFloat), parseGoFloat s = some v → goFloatGT0 v = true →
      spotMaxPriceValidator s = .ok ()) ∧
    (∀ s : String, parseGoFloat s = none → s ≠ "on-demand" →
      spotMaxPriceValidator s = .error "Expected a numeric value for spot max price") ∧
    (∀ (s : String) (v : GoFloat), parseGoFloat s = some v → goFloatLE0 v = true →
      spotMaxPriceValidator s = .error "Spot max price must be positive") ∧
    spotMaxPriceValidator "Inf" = .ok () ∧
    spotMaxPriceValidator "infinity" = .ok () ∧
    spotMaxPriceValidator "NaN" = .ok () ∧
    spotMaxPriceValidator "-Inf" = .error "Spot max price must be positive" ∧
    spotMaxPriceValidator "1e400" = .error "Expected a numeric value for spot max price" ∧
    spotMaxPriceValidator "1e-400" = .error "Spot max price must be positive" ∧
    spotMaxPriceValidator "0x1p-2" = .ok () := by
  refine ⟨by decide, by decide, by decide, by decide, ?_, ?_, ?_,
    by decide, by decide, by decide, by decide, by decide, by decide, by decide⟩
  · intro s v h1 h2
    have hs : s ≠ "on-demand" := parseGoFloat_ne_onDemand s v h1
    have hle : goFloatLE0 v = false := goFloatGT0_le0_false v h2
    unfold spotMaxPriceValidator
    rw [if_neg hs]
    simp only [h1]
    rw [if_neg (by simp [hle])]
  · intro s h1 hs
    unfold spotMaxPriceValidator
    rw [if_neg hs]
    simp only [h1]
  · intro s v h1 h2
    have hs : s ≠ "on-demand" := parseGoFloat_ne_onDemand s v h1
    unfold spotMaxPriceValidator
    rw [if_neg hs]
    simp only [h1]
    rw [if_pos h2]

/-- Claim C5 witness: the three general clauses applied at concrete inputs. -/
theorem claim_C5_witness :
    spotMaxPriceValidator "2.5" = .ok () ∧
    spotMaxPriceValidator "abc" = .error "Expected a numeric value for spot max price" ∧
    spotMaxPriceValidator "0" = .error "Spot max price must be positive" :=
  ⟨claim_C5.2.2.2.2.1 "2.5" (.finite ⟨25, 1⟩) (by decide) (by decide),
   claim_C5.2.2.2.2.2.1 "abc" (by decide) (by decide),
   claim_C5.2.2.2.2.2.2.1 "0" (.finite ⟨0, 0⟩) (by decide) (by decide)⟩

theorem badChar_classes {c : Char} (h : c = '#' ∨ c = '%' ∨ c = '$') :
    isLowerAZ c = false ∧ isLowerAlnum c = false ∧ isKeyMid c = false := by
  rcases h with h | h | h <;> subst h <;> exact ⟨by decide, by decide, by decide⟩

/-- Claim C4: machine pool name validation, after trimming spaces and tabs,
matches exactly `^[a-z]([-a-z0-9]*[a-z0-9])?$`: the listed examples are
accepted and rejected as the spec says, any string containing one of the
characters `#`, `%`, `$` is rejected, and in the (non-interactive) name
resolution of the creation flow a name passes exactly when its trimmed form
matches, otherwise the flow fails with the name-validation error. -/
theorem claim_C4 :
    machinePoolKeyMatch "machinepool1" = true ∧
    machinePoolKeyMatch "m11111111111111111111111111111" = true ∧
    machinePoolKeyMatch "1machinepool" = false ∧
    machinePoolKeyMatch "#1machinepool" = false ∧
    (∀ s : String, ∀ c ∈ s.data, (c = '#' ∨ c = '%' ∨ c = '$') →
      machinePoolKeyMatch s = false) ∧
    (∀ env : Env, env.interactiveEnabled = false → trimSpaceTab env.args.name ≠ "" →
      (machinePoolKeyMatch (trimSpaceTab env.args.name) = true →
        resolveName env = .ok (trimSpaceTab env.args.name, false)) ∧
      (machinePoolKeyMatch (trimSpaceTab env.args.name) = false →
        resolveName env = .error "Expected a valid name for the machine pool")) := by
  refine ⟨by decide, by decide, by decide, by decide, ?_, ?_⟩
  · intro s c hc hbad
    obtain ⟨h1, h2, h3⟩ := badChar_classes hbad
    unfold machinePoolKeyMatch
    cases hd : s.data with
    | nil => exact absurd hc (by rw [hd]; exact List.not_mem_nil c)
    | cons c0 rest =>
      rw [hd] at hc
      simp only
      rcases List.mem_cons.mp hc with hc0 | hcr
      · subst hc0
        simp [h1]
      · have hrev : c ∈ rest.reverse := List.mem_reverse.mpr hcr
        cases hr : rest.reverse with
        | nil => exact absurd hrev (by rw [hr]; exact List.not_mem_nil c)
        | cons lastc mid =>
          rw [hr] at hrev
          simp only [hr]
          rcases List.mem_cons.mp hrev with hl | hm
          · subst hl
            simp [h2]
          · have hnall : ¬(mid.all isKeyMid = true) := by
              rw [List.all_eq_true]
              intro hall
              have := hall c hm
              rw [h3] at this
              cases this
            have hfalse : mid.all isKeyMid = false := by
              cases hx : mid.all isKeyMid
              · rfl
              · exact absurd hx hnall
            simp [hfalse]
  · intro env hint hne
    exact ⟨fun hm => resolveName_nonInteractive env hint hne hm,
      fun hm => resolveName_nonInteractive_err env hint hne hm⟩

/-- Claim C4 witness: the general clauses applied at concrete inputs. -/
theorem claim_C4_witness :
    machinePoolKeyMatch "worker%pool" = false ∧
    resolveName baseEnv = .ok ("workers", false) :=
  ⟨claim_C4.2.2.2.2.1 "worker%pool" '%' (by decide) (Or.inr (Or.inl rfl)),
   (claim_C4.2.2.2.2.2 baseEnv rfl (by decide)).1 (by decide)⟩

/-- Claim C6: on a multi-AZ cluster with zones `us-east-1a`, `us-east-1b`,
a single-AZ pool with availability-zone input `us-east-1a` and no subnet
resolves to exactly that zone; a multi-AZ pool with no subnet resolves to the
cluster's full zone list in cluster order; and a subnet input resolves to the
single zone of that subnet as looked up through the cloud SDK. -/
theorem claim_C6 :
    (∀ rt : Runtime,
      getMachinePoolAvailabilityZones rt clusterC6 false "us-east-1a" "" = .ok ["us-east-1a"]) ∧
    (∀ rt : Runtime,
      getMachinePoolAvailabilityZones rt clusterC6 true "" "" =
        .ok ["us-east-1a", "us-east-1b"]) ∧
    (∀ (rt : Runtime) (subnet az : String), subnet ≠ "" →
      rt.getSubnetAvailabilityZone subnet = .ok az →
      getMachinePoolAvailabilityZones rt clusterC6 false "" subnet = .ok [az] ∧
      getMachinePoolAvailabilityZones rt clusterC6 true "" subnet = .ok [az]) := by
  refine ⟨fun rt => ?_, fun rt => ?_, fun rt subnet az h1 h2 => ?_⟩
  · simp [getMachinePoolAvailabilityZones, clusterC6]
  · simp [getMachinePoolAvailabilityZones, clusterC6]
  · have hmain : ∀ b : Bool, getMachinePoolAvailabilityZones rt clusterC6 b "" subnet = .ok [az] := by
      intro b
      unfold getMachinePoolAvailabilityZones
      rw [if_neg (by simp)]
      rw [if_pos h1]
      simp [h2]
    exact ⟨hmain false, hmain true⟩

/-- Claim C6 witness: the subnet clause applied at a concrete runtime. -/
theorem claim_C6_witness :
    getMachinePoolAvailabilityZones baseRuntime clusterC6 false "" "subnet-1" =
      .ok ["us-east-1a"] :=
  (claim_C6.2.2 baseRuntime "subnet-1" "us-east-1a" (by decide) rfl).1

/-! ## Success inversion for the machine pool flow -/

theorem createMachinePool_ok_inv (env : Env) (p : MachinePoolRequest)
    (h : createMachinePool env = .ok p) :
    ∃ (intOn : Bool) (mz : Bool) (scaling : Scaling) (azFilter : List String) (subnet : String)
      (useSpot : Bool) (mp : Option Decimal),
      resolveScaling intOn env.flags env.args env.prompts mz = .ok scaling ∧
      resolveSpot env intOn azFilter subnet = .ok (useSpot, mp) ∧
      p.autoscaling = scalingToAutoscaling scaling ∧
      p.aws.spotMarketOptions = (if useSpot then some { maxPrice := mp } else none) := by
  unfold createMachinePool at h
  repeat' split at h
  all_goals try cases h
  exact ⟨_, _, _, _, _, _, _, by assumption, by assumption, rfl, rfl⟩

/-! ## Claim C1 -/

theorem validateFlags_conflict_no_ok (env : Env) (h1 : env.flags.subnet = true)
    (h2 : env.flags.availabilityZone = true) (c : Bool) : validateFlags env ≠ .ok c := by
  intro hok
  unfold validateFlags at hok
  repeat' split at hok
  all_goals simp_all

/-- Claim C1 counterexample: with both flags set on a non-multi-AZ cluster,
`CreateMachinePool` fails with the earlier availability-zone/multi-AZ error,
not with the fixed subnet/availability-zone conflict message the claim
requires regardless of cluster properties. -/
theorem claim_C1_counterexample :
    envC1.flags.subnet = true ∧ envC1.flags.availabilityZone = true ∧
    createMachinePool envC1 =
      .error "Setting the `availability-zone` flag is only allowed for multi-AZ clusters" ∧
    ("Setting the `availability-zone` flag is only allowed for multi-AZ clusters" ≠
      subnetAzConflictMsg) :=
  ⟨rfl, rfl, by decide, by decide⟩

/-- Claim C1 (amended): for `CreateNodePools` the conflict check comes first,
so any invocation with both flags set fails with the fixed conflict message;
for `CreateMachinePool` such an invocation always fails before the create
call, and it fails with the fixed conflict message provided the earlier flag
validations pass (multi-AZ BYO-VPC cluster whose security-group version
comparison succeeded). -/
theorem claim_C1_amended :
    (∀ env : Env, env.flags.subnet = true → env.flags.availabilityZone = true →
      createNodePools env = .error subnetAzConflictMsg) ∧
    (∀ env : Env, env.flags.subnet = true → env.flags.availabilityZone = true →
      ∃ e, createMachinePool env = .error e) ∧
    (∀ env : Env, env.flags.subnet = true → env.flags.availabilityZone = true →
      env.cluster.multiAZ = true → env.cluster.byoVpc = true →
      env.rt.sgVersionCompat = .ok true →
      createMachinePool env = .error subnetAzConflictMsg) := by
  refine ⟨fun env h1 h2 => ?_, fun env h1 h2 => ?_, fun env h1 h2 hm hb hv => ?_⟩
  · unfold createNodePools
    rw [if_pos ⟨h1, h2⟩]
  · cases hval : validateFlags env with
    | error e =>
      refine ⟨e, ?_⟩
      unfold createMachinePool
      rw [hval]
    | ok c => exact absurd hval (validateFlags_conflict_no_ok env h1 h2 c)
  · have hval : validateFlags env = .error subnetAzConflictMsg := by
      unfold validateFlags
      rw [if_neg (by simp [hm]), if_neg (by simp [hm]), if_neg (by simp [hb])]
      simp only [hv]
      rw [if_neg (by simp [hb]), if_neg (by simp), if_pos ⟨h1, h2⟩]
    unfold createMachinePool
    rw [hval]

/-- Claim C1 witness: the amended clauses applied to concrete invocations. -/
theorem claim_C1_witness :
    createNodePools envC1 = .error subnetAzConflictMsg ∧
    createMachinePool envC1b = .error subnetAzConflictMsg :=
  ⟨claim_C1_amended.1 envC1 rfl rfl, claim_C1_amended.2.2 envC1b rfl rfl rfl rfl rfl⟩

/-! ## Claim C3 -/

/-- Claim C3: `maxReplicaValidator` rejects any maximum below the minimum
with the source's message, and a successful `CreateMachinePool` (the request
reached the create API call) never carries an autoscaling range with
`minReplicas > maxReplicas` — violating inputs abort beforehand. -/
theorem claim_C3 :
    (∀ (minR : Int) (mz : Bool) (maxR : Int), maxR < minR →
      maxReplicaValidator minR mz maxR =
        .error "max-replicas must be greater or equal to min-replicas") ∧
    (∀ (env : Env) (p : MachinePoolRequest) (mn mx : Int),
      createMachinePool env = .ok p → p.autoscaling = some (mn, mx) → mn ≤ mx) := by
  constructor
  · intro minR mz maxR h
    unfold maxReplicaValidator
    rw [if_pos (by omega)]
  · intro env p mn mx hok hauto
    obtain ⟨intOn, mz, scaling, azF, subnet, us, mp, hscal, _, hpa, _⟩ :=
      createMachinePool_ok_inv env p hok
    rw [hauto] at hpa
    cases scaling with
    | fixed n => simp [scalingToAutoscaling] at hpa
    | autoscaled a b =>
      simp only [scalingToAutoscaling, Option.some.injEq, Prod.mk.injEq] at hpa
      obtain ⟨ha, hb⟩ := hpa
      subst ha; subst hb
      have hv := (resolveScaling_ok_valid intOn env.flags env.args env.prompts mz _ hscal).2
        mn mx rfl
      exact ((maxReplicaValidator_ok_iff mn mz mx).mp hv.2).1

/-- Claim C3 witness: both clauses applied at concrete inputs. -/
theorem claim_C3_witness :
    maxReplicaValidator 1 false 0 =
      .error "max-replicas must be greater or equal to min-replicas" ∧
    (1 : Int) ≤ 2 :=
  ⟨claim_C3.1 1 false 0 (by decide),
   claim_C3.2 envAuto reqAuto 1 2 (by decide) rfl⟩

/-! ## Claim C7 -/

/-- Claim C7: with the security-group flag explicitly set (and no earlier
flag validation firing), a non-BYO-VPC cluster is rejected with the BYOVPC
error, and a BYO-VPC cluster below the minimum version is rejected with the
"not supported prior to version" error; in both cases `CreateMachinePool`
returns the error before any create API call. -/
theorem claim_C7 :
    (∀ (env : Env) (c : Bool), env.flags.securityGroupIds = true →
      env.cluster.byoVpc = false →
      (env.flags.multiAvailabilityZone = true → env.cluster.multiAZ = true) →
      (env.flags.availabilityZone = true → env.cluster.multiAZ = true) →
      env.flags.subnet = false →
      env.rt.sgVersionCompat = .ok c →
      createMachinePool env =
        .error s!"Setting the `{machinePoolSecurityGroupFlag}` flag is only allowed for BYOVPC clusters") ∧
    (∀ (env : Env) (v : String), env.flags.securityGroupIds = true →
      env.cluster.byoVpc = true →
      (env.flags.multiAvailabilityZone = true → env.cluster.multiAZ = true) →
      (env.flags.availabilityZone = true → env.cluster.multiAZ = true) →
      env.rt.sgVersionCompat = .ok false →
      env.rt.formatSgMinVersion = .ok v →
      createMachinePool env =
        .error s!"Parameter \x27{machinePoolSecurityGroupFlag}\x27 is not supported prior to version \x27{v}\x27") := by
  constructor
  · intro env c hsg hb hm ha hs hv
    have hval : validateFlags env =
        .error s!"Setting the `{machinePoolSecurityGroupFlag}` flag is only allowed for BYOVPC clusters" := by
      unfold validateFlags
      rw [if_neg (fun hh => hh.2 (hm hh.1)), if_neg (fun hh => hh.2 (ha hh.1)),
        if_neg (fun hh => absurd hh.2 (by simp [hs]))]
      simp only [hv]
      rw [if_pos ⟨hsg, by simp [hb]⟩]
    unfold createMachinePool
    rw [hval]
  · intro env v hsg hb hm ha hv hfv
    have hval : validateFlags env =
        .error s!"Parameter \x27{machinePoolSecurityGroupFlag}\x27 is not supported prior to version \x27{v}\x27" := by
      unfold validateFlags
      rw [if_neg (fun hh => hh.2 (hm hh.1)), if_neg (fun hh => hh.2 (ha hh.1)),
        if_neg (fun hh => hh.1 hb)]
      simp only [hv]
      rw [if_neg (fun hh => hh.2 hb), if_pos ⟨hsg, by simp⟩]
      simp only [hfv]
    unfold createMachinePool
    rw [hval]

/-- Claim C7 witness: both clauses applied at concrete invocations. -/
theorem claim_C7_witness :
    createMachinePool envC7a =
      .error s!"Setting the `{machinePoolSecurityGroupFlag}` flag is only allowed for BYOVPC clusters" ∧
    createMachinePool envC7b =
      .error s!"Parameter \x27{machinePoolSecurityGroupFlag}\x27 is not supported prior to version \x274.11.0\x27" :=
  ⟨claim_C7.1 envC7a true rfl rfl (by decide) (by decide) rfl rfl,
   claim_C7.2 envC7b "4.11.0" rfl rfl (by decide) (by decide) rfl rfl⟩

/-! ## Claim C8 -/

theorem resolveScaling_err_replicasSet (intOn : Bool) (f : Flags) (args : Args) (pr : Prompts)
    (mz : Bool) (hflag : resolveAutoscalingFlag intOn f args pr = .ok true)
    (hrep : f.replicas = true) :
    resolveScaling intOn f args pr mz =
      .error "Replicas can\x27t be set when autoscaling is enabled" := by
  unfold resolveScaling
  simp only [hflag]
  rw [if_pos hrep]

theorem resolveNodePoolScaling_err_replicasSet (intOn : Bool) (f : Flags) (args : Args)
    (pr : Prompts) (hflag : resolveAutoscalingFlag intOn f args pr = .ok true)
    (hrep : f.replicas = true) :
    resolveNodePoolScaling intOn f args pr =
      .error "Replicas can\x27t be set when autoscaling is enabled" := by
  unfold resolveNodePoolScaling
  simp only [hflag]
  rw [if_pos hrep]

theorem resolveScaling_err_minMaxSet (intOn : Bool) (f : Flags) (args : Args) (pr : Prompts)
    (mz : Bool) (hflag : resolveAutoscalingFlag intOn f args pr = .ok false)
    (hmm : f.minReplicas = true ∨ f.maxReplicas = true) :
    resolveScaling intOn f args pr mz =
      .error "Autoscaling must be enabled in order to set min and max replicas" := by
  unfold resolveScaling
  simp only [hflag]
  rw [if_pos hmm]

theorem resolveNodePoolScaling_err_minMaxSet (intOn : Bool) (f : Flags) (args : Args)
    (pr : Prompts) (hflag : resolveAutoscalingFlag intOn f args pr = .ok false)
    (hmm : f.minReplicas = true ∨ f.maxReplicas = true) :
    resolveNodePoolScaling intOn f args pr =
      .error "Autoscaling must be enabled in order to set min and max replicas" := by
  unfold resolveNodePoolScaling
  simp only [hflag]
  rw [if_pos hmm]

theorem createMachinePool_scaling_error (env : Env) (e : String)
    (hint : env.interactiveEnabled = false)
    (hm : env.flags.multiAvailabilityZone = false)
    (ha : env.flags.availabilityZone = false)
    (hs : env.flags.subnet = false)
    (hsg : env.flags.securityGroupIds = false)
    (hmz : env.cluster.multiAZ = false)
    (hbv : env.cluster.byoVpc = false)
    (c : Bool) (hc : env.rt.sgVersionCompat = .ok c)
    (hname : machinePoolKeyMatch (trimSpaceTab env.args.name) = true)
    (hne : trimSpaceTab env.args.name ≠ "")
    (hserr : resolveScaling false env.flags env.args env.prompts false = .error e) :
    createMachinePool env = .error e := by
  have hval : validateFlags env = .ok c := by
    unfold validateFlags
    rw [if_neg (by simp [hm]), if_neg (by simp [ha]), if_neg (by simp [hs])]
    simp only [hc]
    rw [if_neg (by simp [hsg]), if_neg (by simp [hsg]), if_neg (by simp [hs]),
      if_neg (by simp [ha]), if_neg (by simp [hs])]
  have hnm : resolveName env = .ok (trimSpaceTab env.args.name, false) :=
    resolveName_nonInteractive env hint hne hname
  have hplace : resolvePlacement env false = .ok ("", false, "") := by
    simp [resolvePlacement, hmz, hbv]
  unfold createMachinePool
  simp only [hval, hnm, hplace, hserr]

/-- Claim C8: autoscaling and fixed replicas are mutually exclusive at the
flag level in both `CreateMachinePool` (via `resolveScaling`) and
`CreateNodePools` (via `resolveNodePoolScaling`): with autoscaling resolved
on, an explicitly set `replicas` flag aborts with the fixed message, and with
autoscaling resolved off, an explicitly set `min-replicas` or `max-replicas`
flag aborts with the fixed message, independent of all numeric values; in the
machine pool flow the whole operation fails with those messages. -/
theorem claim_C8 :
    (∀ (intOn : Bool) (f : Flags) (args : Args) (pr : Prompts) (mz : Bool),
      resolveAutoscalingFlag intOn f args pr = .ok true → f.replicas = true →
      resolveScaling intOn f args pr mz =
        .error "Replicas can\x27t be set when autoscaling is enabled" ∧
      resolveNodePoolScaling intOn f args pr =
        .error "Replicas can\x27t be set when autoscaling is enabled") ∧
    (∀ (intOn : Bool) (f : Flags) (args : Args) (pr : Prompts) (mz : Bool),
      resolveAutoscalingFlag intOn f args pr = .ok false →
      (f.minReplicas = true ∨ f.maxReplicas = true) →
      resolveScaling intOn f args pr mz =
        .error "Autoscaling must be enabled in order to set min and max replicas" ∧
      resolveNodePoolScaling intOn f args pr =
        .error "Autoscaling must be enabled in order to set min and max replicas") ∧
    (∀ env : Env, env.interactiveEnabled = false →
      env.flags.multiAvailabilityZone = false → env.flags.availabilityZone = false →
      env.flags.subnet = false → env.flags.securityGroupIds = false →
      env.cluster.multiAZ = false → env.cluster.byoVpc = false →
      (∃ c, env.rt.sgVersionCompat = .ok c) →
      machinePoolKeyMatch (trimSpaceTab env.args.name) = true →
      trimSpaceTab env.args.name ≠ "" →
      ((env.flags.replicas = true → env.args.autoscalingEnabled = true →
        createMachinePool env = .error "Replicas can\x27t be set when autoscaling is enabled") ∧
       (env.args.autoscalingEnabled = false →
        (env.flags.minReplicas = true ∨ env.flags.maxReplicas = true) →
        createMachinePool env =
          .error "Autoscaling must be enabled in order to set min and max replicas"))) := by
  refine ⟨?_, ?_, ?_⟩
  · intro intOn f args pr mz hflag hrep
    exact ⟨resolveScaling_err_replicasSet intOn f args pr mz hflag hrep,
      resolveNodePoolScaling_err_replicasSet intOn f args pr hflag hrep⟩
  · intro intOn f args pr mz hflag hmm
    exact ⟨resolveScaling_err_minMaxSet intOn f args pr mz hflag hmm,
      resolveNodePoolScaling_err_minMaxSet intOn f args pr hflag hmm⟩
  · intro env hint hm ha hs hsg hmz hbv hex hname hne
    obtain ⟨c, hc⟩ := hex
    constructor
    · intro hrep hauto
      have hflag : resolveAutoscalingFlag false env.flags env.args env.prompts = .ok true := by
        unfold resolveAutoscalingFlag
        rw [if_neg (by simp [hrep]), hauto]
      exact createMachinePool_scaling_error env _ hint hm ha hs hsg hmz hbv c hc hname hne
        (resolveScaling_err_replicasSet false env.flags env.args env.prompts false hflag hrep)
    · intro hauto hmm
      have hflag : resolveAutoscalingFlag false env.flags env.args env.prompts = .ok false := by
        unfold resolveAutoscalingFlag
        rw [if_neg (by simp), hauto]
      exact createMachinePool_scaling_error env _ hint hm ha hs hsg hmz hbv c hc hname hne
        (resolveScaling_err_minMaxSet false env.flags env.args env.prompts false hflag hmm)

/-- Claim C8 witness: the full-flow clause applied at a concrete invocation. -/
theorem claim_C8_witness :
    createMachinePool envC8 = .error "Replicas can\x27t be set when autoscaling is enabled" :=
  ((claim_C8.2.2 envC8 rfl rfl rfl rfl rfl rfl rfl ⟨true, rfl⟩ (by decide) (by decide)).1) rfl rfl

/-! ## Claims C9 and C10 -/

theorem resolveSpot_ok_inv (env : Env) (intOn : Bool) (azFilter : List String) (subnet : String)
    (useSpot : Bool) (mp : Option Decimal)
    (h : resolveSpot env intOn azFilter subnet = .ok (useSpot, mp)) :
    ¬(env.flags.spotMaxPrice = true ∧ env.flags.useSpotInstances = true ∧
      env.args.useSpotInstances = false) ∧
    ∃ s, computeMaxPrice s = .ok mp := by
  constructor
  · rintro ⟨a, b, c⟩
    have herr : resolveSpot env intOn azFilter subnet =
        .error "Can\x27t set max price when not using spot instances" := by
      unfold resolveSpot
      rw [if_pos ⟨a, b, by simp [c]⟩]
    rw [herr] at h
    cases h
  · unfold resolveSpot at h
    repeat' split at h
    all_goals try cases h
    all_goals exact ⟨_, by assumption⟩

theorem computeMaxPrice_ok_none_iff (s : String) (mp : Option Decimal)
    (h : computeMaxPrice s = .ok mp) : mp = none ↔ s = "on-demand" := by
  unfold computeMaxPrice at h
  split at h
  · cases h
  · split at h
    · rename_i hne
      cases h
      simp [hne]
    · rename_i hne
      cases h
      simp only [ne_eq, not_not] at hne
      simp [hne]

/-- Claim C9 counterexample: a spot max price set without spot instances
enabled is not an error when the `use-spot-instances` flag was not explicitly
set — the operation completes and reaches the create API call, with no spot
options in the request. -/
theorem claim_C9_counterexample :
    envC9.flags.spotMaxPrice = true ∧ envC9.flags.useSpotInstances = false ∧
    envC9.args.useSpotInstances = false ∧
    createMachinePool envC9 = .ok reqC9 :=
  ⟨rfl, rfl, rfl, by decide⟩

/-- Claim C9 (amended): the max-price/spot conflict error fires exactly when
the `spot-max-price` and `use-spot-instances` flags are both explicitly set
with spot instances disabled; a local-zone placement (subnet whose zone is
local) forbids spot instances with the fixed message; and no successful
`CreateMachinePool` run (the create call was reached) had that flag
combination. -/
theorem claim_C9_amended :
    (∀ (env : Env) (intOn : Bool) (azFilter : List String) (subnet : String),
      env.flags.spotMaxPrice = true → env.flags.useSpotInstances = true →
      env.args.useSpotInstances = false →
      resolveSpot env intOn azFilter subnet =
        .error "Can\x27t set max price when not using spot instances") ∧
    (∀ (env : Env) (intOn : Bool) (az0 : String) (rest : List String) (subnet : String),
      subnet ≠ "" → env.rt.isLocalAvailabilityZone az0 = .ok true →
      env.args.useSpotInstances = true →
      resolveSpot env intOn (az0 :: rest) subnet =
        .error "Spot instances are not supported for local zones") ∧
    (∀ (env : Env) (p : MachinePoolRequest), createMachinePool env = .ok p →
      ¬(env.flags.spotMaxPrice = true ∧ env.flags.useSpotInstances = true ∧
        env.args.useSpotInstances = false)) := by
  refine ⟨?_, ?_, ?_⟩
  · intro env intOn azF subnet h1 h2 h3
    unfold resolveSpot
    rw [if_pos ⟨h1, h2, by simp [h3]⟩]
  · intro env intOn az0 rest subnet h1 h2 h3
    unfold resolveSpot
    rw [if_neg (by simp [h3])]
    rw [if_pos h1]
    simp only [h2]
    rw [if_pos (by simp [h3])]
  · intro env p hok hconj
    obtain ⟨intOn, mz, scaling, azF, subnet, us, mp, _, hspot, _, _⟩ :=
      createMachinePool_ok_inv env p hok
    exact (resolveSpot_ok_inv env intOn azF subnet us mp hspot).1 hconj

/-- Claim C9 witness: the amended conflict clause applied concretely. -/
theorem claim_C9_witness :
    resolveSpot envC9b false [] "" =
      .error "Can\x27t set max price when not using spot instances" :=
  claim_C9_amended.1 envC9b false [] "" rfl rfl rfl

/-- Claim C10: in the spot price computation of the machine pool flow the
max-price field is present exactly when the resolved price string is not
`on-demand` (in which case it carries the parsed value), the built AWS
section carries spot market options exactly when spot instances are used, and
every successful run's request with spot options got its max-price field from
that computation (absence of the field encodes on-demand pricing). -/
theorem claim_C10 :
    (∀ (s : String) (mp : Option Decimal), computeMaxPrice s = .ok mp →
      (mp = none ↔ s = "on-demand")) ∧
    (∀ (s : String) (d : Decimal), parseFloat? s = some d → 0 < d.num →
      computeMaxPrice s = .ok (some d)) ∧
    (∀ (env : Env) (name it : String) (scaling : Scaling) (sg : List String)
        (useSpot : Bool) (mp : Option Decimal) (mz : Bool) (az subnet : String)
        (rv : Option Int),
      (buildMachinePoolRequest env name it scaling sg useSpot mp mz az subnet
        rv).aws.spotMarketOptions = if useSpot then some { maxPrice := mp } else none) ∧
    (∀ (env : Env) (p : MachinePoolRequest), createMachinePool env = .ok p →
      ∀ opts, p.aws.spotMarketOptions = some opts →
        ∃ s, computeMaxPrice s = .ok opts.maxPrice ∧
          (opts.maxPrice = none ↔ s = "on-demand")) := by
  refine ⟨computeMaxPrice_ok_none_iff, ?_, ?_, ?_⟩
  · intro s d hp hpos
    have hg : parseGoFloat s = some (.finite d) := parseFloat?_finite s d hp
    have hs : s ≠ "on-demand" := parseGoFloat_ne_onDemand s (.finite d) hg
    have hv : spotMaxPriceValidator s = .ok () := by
      unfold spotMaxPriceValidator
      rw [if_neg hs]
      simp only [hg]
      rw [if_neg (by simp only [goFloatLE0, decide_eq_true_eq]; omega)]
    unfold computeMaxPrice
    simp only [hv]
    rw [if_pos hs]
    simp [hp]
  · intro env name it scaling sg useSpot mp mz az subnet rv
    rfl
  · intro env p hok opts hopts
    obtain ⟨intOn, mz, scaling, azF, subnet, us, mp, _, hspot, _, hps⟩ :=
      createMachinePool_ok_inv env p hok
    obtain ⟨_, s, hcm⟩ := resolveSpot_ok_inv env intOn azF subnet us mp hspot
    rw [hps] at hopts
    cases us with
    | false => cases hopts
    | true =>
      rw [if_pos rfl] at hopts
      cases hopts
      exact ⟨s, hcm, computeMaxPrice_ok_none_iff s mp hcm⟩

/-- Claim C10 witness: both price clauses applied at concrete inputs. -/
theorem claim_C10_witness :
    computeMaxPrice "0.01" = .ok (some ⟨1, 2⟩) ∧
    ((none : Option Decimal) = none ↔ ("on-demand" : String) = "on-demand") :=
  ⟨claim_C10.2.1 "0.01" ⟨1, 2⟩ (by decide) (by decide),
   claim_C10.1 "on-demand" none (by decide)⟩

end Rosa
